import Mathlib

/-!
Mi Global IAP client (`xiaomi/xiaomi.go`): a shallow embedding

The Go package signs every call to the remote purchase service with an
HMAC-SHA1 over a canonical string, assembles the header map and interprets the
HTTP status.  This file embeds the package function by function and proves
properties of the embedding.

Modelling conventions

* A Go `string` is an immutable byte sequence: `GoString := List UInt8`.
  `len` is `List.length`, `s[lo:hi]` is `goSlice` (which fails, like the Go
  run time panics, when the bounds are out of range), `+` is `++`.
* A variadic parameter `p ...string` is the list of the arguments passed; no
  argument is `[]` (Go's `nil` slice).
* A Go `map[string]string` is an association list with distinct keys
  (`GoMap`), assignment `m[k] = v` is `GoMap.set`.
* Everything the package obtains from outside itself is a field of `World`:
  the identifier drawn by `uuid.New`, the clock, `net/http` and
  `encoding/json`.  The digests (`crypto/md5`, `crypto/sha1`, `crypto/hmac`),
  `encoding/base64`, `strings.ToUpper`, `strconv.Itoa` and the `%s`/`%d`
  fragment of `fmt.Sprintf` are modelled concretely from their standards.
* A function that can panic returns `Option`; `none` is the panic.
* The public operations return an `Outcome`: the Go result pair together with
  the list of HTTP requests handed to `client.Do` along the way.
-/

namespace Xiaomi

/-! ## Go strings -/

/-- Go `string`: a sequence of bytes. -/
abbrev GoString := List UInt8

/-- Bytes of a Go string literal (Go source text is UTF-8). -/
def lit (s : String) : GoString := s.data.flatMap String.utf8EncodeChar

/-- Slice expression `s[lo:hi]`; `none` when the run time would panic. -/
def goSlice (s : GoString) (lo hi : Nat) : Option GoString :=
  if lo ≤ hi ∧ hi ≤ s.length then some ((s.drop lo).take (hi - lo)) else none

/-- Decimal text of an integer, `strconv.Itoa`. -/
def strconvItoa (n : Int) : GoString := lit (Int.repr n)

/-- Operand handed to `fmt.Sprintf`; the package passes strings and ints. -/
inductive FmtArg
  | str (s : GoString)
  | int (n : Int)
deriving DecidableEq

/-- Text of one operand under the verb byte `v`: `%s` and `%v` print a string
as it is, `%d` and `%v` print an int in decimal, and a verb applied to the
other operand type prints Go's bad-verb notice.  Other verbs do not occur in
the package and are treated like `%v`. -/
def FmtArg.render (v : UInt8) : FmtArg → GoString
  | .str s => if v = 100 then lit "%!d(string=" ++ s ++ lit ")" else s
  | .int n => if v = 115 then lit "%!s(int=" ++ strconvItoa n ++ lit ")" else strconvItoa n

/-- The fragment of `fmt.Sprintf` used by the package: plain bytes are copied,
`%%` is a percent sign, a verb consumes the next operand.  Operands left over
at the end of the format are not reported (the package never passes any). -/
def fmtSprintf : GoString → List FmtArg → GoString
  | [], _ => []
  | c :: rest, args =>
    if c = 37 then
      match rest, args with
      | [], _ => lit "%!(NOVERB)"
      | v :: rest2, [] =>
        if v = 37 then 37 :: fmtSprintf rest2 []
        else lit "%!" ++ v :: lit "(MISSING)" ++ fmtSprintf rest2 []
      | v :: rest2, a :: args2 =>
        if v = 37 then 37 :: fmtSprintf rest2 (a :: args2)
        else a.render v ++ fmtSprintf rest2 args2
    else c :: fmtSprintf rest args

/-- ASCII path of `strings.ToUpper`: the letters `a`..`z` are moved to
`A`..`Z`, every other byte below 0x80 is kept.  The package applies it only to
base64 text, which is ASCII; bytes from 0x80 on are kept as they are here. -/
def stringsToUpper (s : GoString) : GoString :=
  s.map fun c => if 97 ≤ c.toNat ∧ c.toNat ≤ 122 then UInt8.ofNat (c.toNat - 32) else c

/-- First step of `url.Parse`, which `http.NewRequest` applies to its URL
argument: the text before the first `#` is parsed into the URL that is
requested; the `#` and what follows it are the fragment, which an HTTP client
does not send.  How the remaining text is escaped on the request line is not
modelled. -/
def urlBeforeFragment (rawURL : GoString) : GoString :=
  rawURL.takeWhile fun c => c ≠ 35

/-! ## Digests (RFC 1321, RFC 3174, RFC 2104) and base64 (RFC 4648)

Words are natural numbers below `2 ^ 32`; every addition is reduced
explicitly. -/

/-- Rotate a 32-bit word left by `n` bits. -/
def rotl32 (x n : Nat) : Nat := ((x <<< n) ||| (x >>> (32 - n))) % 2 ^ 32

/-- Word with the given bytes, most significant first. -/
def beWord (b0 b1 b2 b3 : Nat) : Nat := ((b0 * 256 + b1) * 256 + b2) * 256 + b3

/-- The `n` low bytes of `x`, most significant first. -/
def beBytes (n : Nat) (x : Nat) : List Nat :=
  match n with
  | 0 => []
  | k + 1 => (x / 256 ^ k) % 256 :: beBytes k x

/-- The `n` low bytes of `x`, least significant first. -/
def leBytes (n : Nat) (x : Nat) : List Nat :=
  match n with
  | 0 => []
  | k + 1 => x % 256 :: leBytes k (x / 256)

/-- Number of zero bytes between the 0x80 marker and the 8-byte length so
that the padded message is a whole number of 64-byte blocks. -/
def padZeros (len : Nat) : Nat := (119 - len % 64) % 64

/-- Cut a byte list into `n` consecutive 64-byte blocks. -/
def chunks (n : Nat) (l : List Nat) : List (List Nat) :=
  match n with
  | 0 => []
  | k + 1 => l.take 64 :: chunks k (l.drop 64)

/-- Big-endian 32-bit words of a byte list. -/
def beWords : List Nat → List Nat
  | b0 :: b1 :: b2 :: b3 :: rest => beWord b0 b1 b2 b3 :: beWords rest
  | _ => []

/-- Little-endian 32-bit words of a byte list. -/
def leWords : List Nat → List Nat
  | b0 :: b1 :: b2 :: b3 :: rest => beWord b3 b2 b1 b0 :: leWords rest
  | _ => []

/-- SHA-1 padding. -/
def sha1Pad (m : List Nat) : List Nat :=
  m ++ 0x80 :: List.replicate (padZeros m.length) 0 ++ beBytes 8 (8 * m.length)

/-- SHA-1 message schedule, newest word first: `n` more words are added to
`rev`, each from the words 3, 8, 14 and 16 places back. -/
def sha1Schedule (n : Nat) (rev : List Nat) : List Nat :=
  match n with
  | 0 => rev
  | k + 1 =>
    sha1Schedule k
      (rotl32 (rev.getD 2 0 ^^^ rev.getD 7 0 ^^^ rev.getD 13 0 ^^^ rev.getD 15 0) 1 :: rev)

/-- SHA-1 round function of round `t`. -/
def sha1F (t b c d : Nat) : Nat :=
  if t < 20 then (b &&& c) ||| ((b ^^^ 0xFFFFFFFF) &&& d)
  else if t < 40 then b ^^^ c ^^^ d
  else if t < 60 then (b &&& c) ||| (b &&& d) ||| (c &&& d)
  else b ^^^ c ^^^ d

/-- SHA-1 round constant of round `t`. -/
def sha1K (t : Nat) : Nat :=
  if t < 20 then 0x5A827999
  else if t < 40 then 0x6ED9EBA1
  else if t < 60 then 0x8F1BBCDC
  else 0xCA62C1D6

/-- SHA-1 chaining value. -/
structure Sha1State where
  a : Nat
  b : Nat
  c : Nat
  d : Nat
  e : Nat
deriving DecidableEq

/-- The SHA-1 rounds from round `t` on, one per schedule word. -/
def sha1Rounds (t : Nat) (w : List Nat) (s : Sha1State) : Sha1State :=
  match w with
  | [] => s
  | wt :: rest =>
    sha1Rounds (t + 1) rest
      { a := (rotl32 s.a 5 + sha1F t s.b s.c s.d + s.e + sha1K t + wt) % 2 ^ 32
        b := s.a
        c := rotl32 s.b 30
        d := s.c
        e := s.d }

/-- SHA-1 compression of one block. -/
def sha1Block (s : Sha1State) (block : List Nat) : Sha1State :=
  let w := (sha1Schedule 64 (beWords block).reverse).reverse
  let r := sha1Rounds 0 w s
  { a := (s.a + r.a) % 2 ^ 32
    b := (s.b + r.b) % 2 ^ 32
    c := (s.c + r.c) % 2 ^ 32
    d := (s.d + r.d) % 2 ^ 32
    e := (s.e + r.e) % 2 ^ 32 }

/-- SHA-1 initial chaining value. -/
def sha1Init : Sha1State :=
  { a := 0x67452301, b := 0xEFCDAB89, c := 0x98BADCFE, d := 0x10325476, e := 0xC3D2E1F0 }

/-- SHA-1 digest (20 bytes) of a byte list. -/
def sha1Digest (m : List Nat) : List Nat :=
  let p := sha1Pad m
  let s := (chunks (p.length / 64) p).foldl sha1Block sha1Init
  beBytes 4 s.a ++ beBytes 4 s.b ++ beBytes 4 s.c ++ beBytes 4 s.d ++ beBytes 4 s.e

/-- HMAC with SHA-1: keys longer than a block are hashed, then padded with
zeros to 64 bytes. -/
def hmacSha1Digest (key msg : List Nat) : List Nat :=
  let k0 := if 64 < key.length then sha1Digest key else key
  let k := k0 ++ List.replicate (64 - k0.length) 0
  sha1Digest (k.map (· ^^^ 0x5c) ++ sha1Digest (k.map (· ^^^ 0x36) ++ msg))

/-- MD5 per-round shift amounts. -/
def md5S : List Nat :=
  [7, 12, 17, 22, 7, 12, 17, 22, 7, 12, 17, 22, 7, 12, 17, 22,
   5, 9, 14, 20, 5, 9, 14, 20, 5, 9, 14, 20, 5, 9, 14, 20,
   4, 11, 16, 23, 4, 11, 16, 23, 4, 11, 16, 23, 4, 11, 16, 23,
   6, 10, 15, 21, 6, 10, 15, 21, 6, 10, 15, 21, 6, 10, 15, 21]

/-- MD5 per-round additive constants. -/
def md5K : List Nat :=
  [0xd76aa478, 0xe8c7b756, 0x242070db, 0xc1bdceee, 0xf57c0faf, 0x4787c62a, 0xa8304613, 0xfd469501,
   0x698098d8, 0x8b44f7af, 0xffff5bb1, 0x895cd7be, 0x6b901122, 0xfd987193, 0xa679438e, 0x49b40821,
   0xf61e2562, 0xc040b340, 0x265e5a51, 0xe9b6c7aa, 0xd62f105d, 0x02441453, 0xd8a1e681, 0xe7d3fbc8,
   0x21e1cde6, 0xc33707d6, 0xf4d50d87, 0x455a14ed, 0xa9e3e905, 0xfcefa3f8, 0x676f02d9, 0x8d2a4c8a,
   0xfffa3942, 0x8771f681, 0x6d9d6122, 0xfde5380c, 0xa4beea44, 0x4bdecfa9, 0xf6bb4b60, 0xbebfbc70,
   0x289b7ec6, 0xeaa127fa, 0xd4ef3085, 0x04881d05, 0xd9d4d039, 0xe6db99e5, 0x1fa27cf8, 0xc4ac5665,
   0xf4292244, 0x432aff97, 0xab9423a7, 0xfc93a039, 0x655b59c3, 0x8f0ccc92, 0xffeff47d, 0x85845dd1,
   0x6fa87e4f, 0xfe2ce6e0, 0xa3014314, 0x4e0811a1, 0xf7537e82, 0xbd3af235, 0x2ad7d2bb, 0xeb86d391]

/-- MD5 chaining value. -/
structure Md5State where
  a : Nat
  b : Nat
  c : Nat
  d : Nat
deriving DecidableEq

/-- MD5 round function of step `i`. -/
def md5F (i b c d : Nat) : Nat :=
  if i < 16 then (b &&& c) ||| ((b ^^^ 0xFFFFFFFF) &&& d)
  else if i < 32 then (d &&& b) ||| ((d ^^^ 0xFFFFFFFF) &&& c)
  else if i < 48 then b ^^^ c ^^^ d
  else c ^^^ (b ||| (d ^^^ 0xFFFFFFFF))

/-- Index of the message word used in MD5 step `i`. -/
def md5G (i : Nat) : Nat :=
  if i < 16 then i
  else if i < 32 then (5 * i + 1) % 16
  else if i < 48 then (3 * i + 5) % 16
  else (7 * i) % 16

/-- The MD5 steps from step `i` on, one per (constant, shift) pair. -/
def md5Rounds (i : Nat) (ks : List (Nat × Nat)) (m : List Nat) (s : Md5State) : Md5State :=
  match ks with
  | [] => s
  | (k, r) :: rest =>
    md5Rounds (i + 1) rest m
      { a := s.d
        b := (s.b + rotl32 ((s.a + md5F i s.b s.c s.d + k + m.getD (md5G i) 0) % 2 ^ 32) r) % 2 ^ 32
        c := s.b
        d := s.c }

/-- MD5 compression of one block. -/
def md5Block (s : Md5State) (block : List Nat) : Md5State :=
  let r := md5Rounds 0 (md5K.zip md5S) (leWords block) s
  { a := (s.a + r.a) % 2 ^ 32
    b := (s.b + r.b) % 2 ^ 32
    c := (s.c + r.c) % 2 ^ 32
    d := (s.d + r.d) % 2 ^ 32 }

/-- MD5 initial chaining value. -/
def md5Init : Md5State :=
  { a := 0x67452301, b := 0xefcdab89, c := 0x98badcfe, d := 0x10325476 }

/-- MD5 padding. -/
def md5Pad (m : List Nat) : List Nat :=
  m ++ 0x80 :: List.replicate (padZeros m.length) 0 ++ leBytes 8 (8 * m.length)

/-- MD5 digest (16 bytes) of a byte list. -/
def md5Digest (m : List Nat) : List Nat :=
  let p := md5Pad m
  let s := (chunks (p.length / 64) p).foldl md5Block md5Init
  leBytes 4 s.a ++ leBytes 4 s.b ++ leBytes 4 s.c ++ leBytes 4 s.d

/-- Character code of a 6-bit value in the standard base64 alphabet. -/
def b64Char (n : Nat) : Nat :=
  if n < 26 then 65 + n
  else if n < 52 then 97 + (n - 26)
  else if n < 62 then 48 + (n - 52)
  else if n = 62 then 43
  else 47

/-- Standard base64 with `=` padding, on byte values. -/
def base64Encode : List Nat → List Nat
  | b0 :: b1 :: b2 :: rest =>
    b64Char (b0 / 4) :: b64Char (b0 % 4 * 16 + b1 / 16) ::
      b64Char (b1 % 16 * 4 + b2 / 64) :: b64Char (b2 % 64) :: base64Encode rest
  | [b0, b1] =>
    [b64Char (b0 / 4), b64Char (b0 % 4 * 16 + b1 / 16), b64Char (b1 % 16 * 4), 61]
  | [b0] => [b64Char (b0 / 4), b64Char (b0 % 4 * 16), 61, 61]
  | [] => []

/-- Digest of `md5.Sum([]byte(text))`. -/
def md5Sum (text : GoString) : List UInt8 :=
  (md5Digest (text.map UInt8.toNat)).map UInt8.ofNat

/-- MAC of `hmac.New(sha1.New, key)` after `Write(text)`, read by `Sum(nil)`. -/
def hmacSha1 (key text : GoString) : List UInt8 :=
  (hmacSha1Digest (key.map UInt8.toNat) (text.map UInt8.toNat)).map UInt8.ofNat

/-- Text of `base64.StdEncoding.EncodeToString`. -/
def base64StdEncodeToString (b : List UInt8) : GoString :=
  (base64Encode (b.map UInt8.toNat)).map UInt8.ofNat

/-! ## Maps -/

/-- Go `map[string]string`. -/
abbrev GoMap := List (GoString × GoString)

/-- Assignment `m[k] = v`: overwrite the entry of `k` or add one. -/
def GoMap.set : GoMap → GoString → GoString → GoMap
  | [], k, v => [(k, v)]
  | (k1, v1) :: rest, k, v =>
    if k1 = k then (k, v) :: rest else (k1, v1) :: GoMap.set rest k v

/-- Lookup `v, ok := m[k]`. -/
def GoMap.get (m : GoMap) (k : GoString) : Option GoString := m.lookup k

/-! ## The package's data -/

/-- Exported constant `BASEURL`. -/
def BASEURL : GoString := lit "https://rest-iap.miglobalpay.com"

/-- Exported constant `ACKNOWLEDGE`. -/
def ACKNOWLEDGE : GoString := lit "acknowledge"

/-- Exported constant `CONSUME`. -/
def CONSUME : GoString := lit "consume"

/-- `http.MethodGet`. -/
def httpMethodGet : GoString := lit "GET"

/-- `http.MethodPost`. -/
def httpMethodPost : GoString := lit "POST"

/-- `http.StatusOK`. -/
def httpStatusOK : Int := 200

/-- Client configuration, `type MiGlobalIAP struct`. -/
structure MiGlobalIAP where
  AppID : GoString
  AppKey : GoString
  AppSecret : GoString
  PackageName : GoString
  BaseUrl : GoString
deriving DecidableEq

/-- Parsed purchase, `type PurchaseResult struct`. -/
structure PurchaseResult where
  Kind : GoString
  ProductId : GoString
  Quantity : Int
  OrderId : GoString
  PurchaseToken : GoString
  PurchaseTimeMillis : GoString
  PurchaseState : Int
  AcknowledgementState : Int
  ConsumptionState : Int
  PurchaseType : Int
  DeveloperPayload : GoString
  ObfuscatedExternalAccountId : GoString
  ObfuscatedExternalProfileId : GoString
  RegionCode : GoString
deriving DecidableEq

/-- Parsed failure body, `type ResponseError struct`. -/
structure ResponseError where
  Code : Int
  Message : GoString
deriving DecidableEq

/-- Values of Go's `error` interface met in the package. -/
inductive GoError
  | errorsNew (text : GoString)
  | responseError (e : ResponseError)
  | external (text : GoString)
deriving DecidableEq

/-- Request as handed to `client.Do`: method and URL given to
`http.NewRequest`, the entries passed to `req.Header.Set`, and the body reader
(`none` for a nil reader).  These are the values the package passes to
`net/http`; of what the library makes of them only the fragment split of the
URL is modelled (`urlBeforeFragment`). -/
structure HttpRequest where
  method : GoString
  url : GoString
  header : GoMap
  body : Option GoString
deriving DecidableEq

/-- What the package takes from outside itself during one call. -/
structure World where
  /-- Text of `uuid.New().String()`. -/
  uuidNew : GoString
  /-- Value of `int(time.Now().Unix())`. -/
  timeNowUnix : Int
  /-- Error of `http.NewRequest(method, url, _)`, if any. -/
  httpNewRequest : GoString → GoString → Option GoError
  /-- Result of `client.Do(req)`: an error, or the status code together with the
  result of `io.ReadAll(resp.Body)`. -/
  clientDo : HttpRequest → Except GoError (Int × Except GoError (List UInt8))
  /-- Effect of `json.Unmarshal(b, v)` on a `*ResponseError` holding `v`. -/
  jsonUnmarshalResponseError : List UInt8 → ResponseError → ResponseError
  /-- Effect of `json.Unmarshal(b, v)` on a `*PurchaseResult` holding `v`. -/
  jsonUnmarshalPurchaseResult : List UInt8 → PurchaseResult → PurchaseResult

/-- Result of a public operation: the returned value, the returned error and
the requests handed to `client.Do`, oldest first. -/
structure Outcome (α : Type) where
  value : α
  err : Option GoError
  sent : List HttpRequest

/-! ## The package's functions -/

/-- Zero value made by `new(ResponseError)`. -/
def ResponseError.zero : ResponseError := { Code := 0, Message := [] }

/-- Zero value made by `new(PurchaseResult)`. -/
def PurchaseResult.zero : PurchaseResult :=
  { Kind := [], ProductId := [], Quantity := 0, OrderId := [], PurchaseToken := [],
    PurchaseTimeMillis := [], PurchaseState := 0, AcknowledgementState := 0,
    ConsumptionState := 0, PurchaseType := 0, DeveloperPayload := [],
    ObfuscatedExternalAccountId := [], ObfuscatedExternalProfileId := [], RegionCode := [] }

/-- Source `newResponseError`: decode into a fresh value, ignoring the decode error. -/
def newResponseError (w : World) (b : List UInt8) : ResponseError :=
  w.jsonUnmarshalResponseError b ResponseError.zero

/-- Source `(*ResponseError).Error`. -/
def ResponseError.Error (e : ResponseError) : GoString :=
  fmtSprintf (lit "code:%d,message:%s") [.int e.Code, .str e.Message]

/-- Source `newPurchaseResult`: decode into a fresh value, ignoring the decode error. -/
def newPurchaseResult (w : World) (b : List UInt8) : PurchaseResult :=
  w.jsonUnmarshalPurchaseResult b PurchaseResult.zero

/-- Source `New`. -/
def New (id key secret pkg : GoString) (url : List GoString) : MiGlobalIAP :=
  let baseUrl := if url.length = 1 then url.getD 0 [] else BASEURL
  { AppID := id, AppKey := key, AppSecret := secret, PackageName := pkg, BaseUrl := baseUrl }

/-- Source `verifyToken`: `some` is the returned error, `none` is `nil`. -/
def verifyToken (_mi : MiGlobalIAP) (token : GoString) : Option GoError :=
  if token.length < 3 then some (.errorsNew (lit "token error")) else none

/-- Source `buildRequestUrl`. -/
def buildRequestUrl (mi : MiGlobalIAP) (pid token : GoString) (opt : List GoString) :
    Option GoString :=
  let format := lit "/%s/developer/v1/applications/%s/purchases/products/%s/tokens/%s"
  let format :=
    if 0 < opt.length ∧ (opt.getD 0 [] = ACKNOWLEDGE ∨ opt.getD 0 [] = CONSUME) then
      format ++ lit ":" ++ opt.getD 0 []
    else format
  match goSlice token 1 3 with
  | none => none
  | some region =>
    some (fmtSprintf format [.str region, .str mi.PackageName, .str pid, .str token])

/-- Source `purchaseUrl`. -/
def purchaseUrl (mi : MiGlobalIAP) (pid token : GoString) : Option GoString :=
  buildRequestUrl mi pid token []

/-- Source `acknowledgeUrl`. -/
def acknowledgeUrl (mi : MiGlobalIAP) (pid token : GoString) : Option GoString :=
  buildRequestUrl mi pid token [ACKNOWLEDGE]

/-- Source `consumeUrl`. -/
def consumeUrl (mi : MiGlobalIAP) (pid token : GoString) : Option GoString :=
  buildRequestUrl mi pid token [CONSUME]

/-- Source `md5`: upper-cased base64 of the MD5 digest. -/
def md5 (_mi : MiGlobalIAP) (text : GoString) : GoString :=
  stringsToUpper (base64StdEncodeToString (md5Sum text))

/-- Source `sha1`: base64 of the HMAC-SHA1 keyed by `AppSecret`. -/
def sha1 (mi : MiGlobalIAP) (text : GoString) : GoString :=
  base64StdEncodeToString (hmacSha1 mi.AppSecret text)

/-- Source `signature`: returns `(ias, sha1Sign, md5Sign)`. -/
def signature (w : World) (mi : MiGlobalIAP) (method url : GoString) (payload : List GoString) :
    GoString × GoString × GoString :=
  let ias := w.uuidNew
  let hasPayload : Bool := decide (1 ≤ payload.length ∧ payload.getD 0 [] ≠ [])
  let body := if hasPayload then payload.getD 0 [] else []
  let ias := if payload.length = 2 ∧ payload.getD 1 [] ≠ [] then payload.getD 1 [] else ias
  if hasPayload then
    let md5Sign := md5 mi body
    let text := fmtSprintf (lit "%s\n%s\napplication/json\n\nx-ias-sign-nonce:%s\n%s")
      [.str method, .str md5Sign, .str ias, .str url]
    (ias, sha1 mi text, md5Sign)
  else
    let text := fmtSprintf (lit "%s\n\napplication/json\n\nx-ias-sign-nonce:%s\n%s")
      [.str method, .str ias, .str url]
    (ias, sha1 mi text, [])

/-- Source `buildHeader`. -/
def buildHeader (w : World) (mi : MiGlobalIAP) (ias sha1 : GoString) (md5 : List GoString) :
    GoMap :=
  let m : GoMap := []
  let m := m.set (lit "appId") mi.AppID
  let m := m.set (lit "timestamp") (strconvItoa w.timeNowUnix)
  let m := m.set (lit "x-ias-sign-nonce") ias
  let m := m.set (lit "Content-Type") (lit "application/json")
  let m := if md5.length = 1 then m.set (lit "Content-MD5") (md5.getD 0 []) else m
  let m := m.set (lit "Authorization") (lit "ias " ++ sha1)
  m

/-- Source `request`: returns `(status, body, err)` and the requests handed to
`client.Do` (none when `http.NewRequest` fails, one otherwise).  A nil byte
slice is the empty list. -/
def request (w : World) (method url : GoString) (header : GoMap) (payload : List GoString) :
    (Int × List UInt8 × Option GoError) × List HttpRequest :=
  let reader : Option GoString := if payload.length = 1 then some (payload.getD 0 []) else none
  match w.httpNewRequest method url with
  | some err => ((0, [], some err), [])
  | none =>
    let req : HttpRequest := { method := method, url := url, header := header, body := reader }
    match w.clientDo req with
    | .error err => ((0, [], some err), [req])
    | .ok (_, .error err) => ((0, [], some err), [req])
    | .ok (status, .ok b) => ((status, b, none), [req])

/-- Source `PurchaseStatus`. -/
def PurchaseStatus (w : World) (mi : MiGlobalIAP) (pid token : GoString) :
    Option (Outcome (Option PurchaseResult)) :=
  match verifyToken mi token with
  | some err => some { value := none, err := some err, sent := [] }
  | none =>
    match purchaseUrl mi pid token with
    | none => none
    | some requestUrl =>
      let (ias, sign, _) := signature w mi httpMethodGet requestUrl []
      let headers := buildHeader w mi ias sign []
      let url := mi.BaseUrl ++ requestUrl
      let ((code, body, err), sent) := request w httpMethodGet url headers []
      match err with
      | some e => some { value := none, err := some e, sent := sent }
      | none =>
        if code ≠ httpStatusOK then
          some { value := none, err := some (.responseError (newResponseError w body)), sent := sent }
        else
          some { value := some (newPurchaseResult w body), err := none, sent := sent }

/-- Source `Acknowledge`. -/
def Acknowledge (w : World) (mi : MiGlobalIAP) (pid token : GoString) (payload : List GoString) :
    Option (Outcome Bool) :=
  match verifyToken mi token with
  | some err => some { value := false, err := some err, sent := [] }
  | none =>
    match acknowledgeUrl mi pid token with
    | none => none
    | some requestUrl =>
      let (ias, sign, md5Sign) := signature w mi httpMethodPost requestUrl payload
      let headerMap := buildHeader w mi ias sign [md5Sign]
      let url := mi.BaseUrl ++ requestUrl
      let ((code, body, err), sent) := request w httpMethodPost url headerMap payload
      match err with
      | some e => some { value := false, err := some e, sent := sent }
      | none =>
        if code ≠ httpStatusOK then
          some { value := false, err := some (.responseError (newResponseError w body)), sent := sent }
        else
          some { value := true, err := none, sent := sent }

/-- Source `Consume`. -/
def Consume (w : World) (mi : MiGlobalIAP) (pid token : GoString) (payload : List GoString) :
    Option (Outcome Bool) :=
  match verifyToken mi token with
  | some err => some { value := false, err := some err, sent := [] }
  | none =>
    match consumeUrl mi pid token with
    | none => none
    | some requestUrl =>
      let (ias, sign, md5Sign) := signature w mi httpMethodPost requestUrl payload
      let headerMap := buildHeader w mi ias sign [md5Sign]
      let url := mi.BaseUrl ++ requestUrl
      let ((code, body, err), sent) := request w httpMethodPost url headerMap payload
      match err with
      | some e => some { value := false, err := some e, sent := sent }
      | none =>
        if code ≠ httpStatusOK then
          some { value := false, err := some (.responseError (newResponseError w body)), sent := sent }
        else
          some { value := true, err := none, sent := sent }

/-- Source `(*PurchaseResult).Acknowledgement`. -/
def PurchaseResult.Acknowledgement (s : PurchaseResult) : Bool :=
  decide (s.AcknowledgementState = 1)

/-- Source `(*PurchaseResult).Consumption`. -/
def PurchaseResult.Consumption (s : PurchaseResult) : Bool :=
  decide (s.ConsumptionState = 1)

/-! ## Derived notions used in the statements and proofs -/

/-- Nonce chosen by `signature`: the second payload argument when exactly two
are passed and it is not empty, the fresh identifier otherwise. -/
def signatureNonce (w : World) (payload : List GoString) : GoString :=
  if payload.length = 2 ∧ payload.getD 1 [] ≠ [] then payload.getD 1 [] else w.uuidNew

/-- How a public operation turns the answer to its request into its result:
`fail` is the value returned with an error, `done` the value made from the
body of a 200 answer. -/
def interpret {α : Type} (w : World) (fail : α) (done : List UInt8 → α) (req : HttpRequest)
    (newRequestErr : Option GoError) : Outcome α :=
  match newRequestErr with
  | some e => { value := fail, err := some e, sent := [] }
  | none =>
    match w.clientDo req with
    | .error e => { value := fail, err := some e, sent := [req] }
    | .ok (_, .error e) => { value := fail, err := some e, sent := [req] }
    | .ok (code, .ok b) =>
      if code ≠ httpStatusOK then
        { value := fail, err := some (.responseError (newResponseError w b)), sent := [req] }
      else { value := done b, err := none, sent := [req] }

/-- A world for the examples: the request is built without error and answered
with the given status and body; the decoders store the body text. -/
def sampleWorld (status : Int) (body : List UInt8) : World :=
  { uuidNew := lit "9b2f6c1e-5d1a-4c58-8f0e-3a7d2b4c6e10"
    timeNowUnix := 1664553600
    httpNewRequest := fun _ _ => none
    clientDo := fun _ => .ok (status, .ok body)
    jsonUnmarshalResponseError := fun b v => { v with Message := b }
    jsonUnmarshalPurchaseResult := fun b v => { v with Kind := b } }

/-- The configuration of the package's tests. -/
def sampleClient : MiGlobalIAP :=
  New (lit "123456") (lit "123456") (lit "MTIzNDU2Nzg5MA==") (lit "com.iap.test") []

/-- A world for the examples in which `client.Do` fails with the given error. -/
def failingWorld (e : GoError) : World :=
  { uuidNew := lit "9b2f6c1e-5d1a-4c58-8f0e-3a7d2b4c6e10"
    timeNowUnix := 1664553600
    httpNewRequest := fun _ _ => none
    clientDo := fun _ => .error e
    jsonUnmarshalResponseError := fun b v => { v with Message := b }
    jsonUnmarshalPurchaseResult := fun b v => { v with Kind := b } }

/-! ## Lemmas on the modelled library functions -/

/-- Bytes other than the percent sign are copied by `fmtSprintf`. -/
theorem fmtSprintf_plain (p rest : GoString) (args : List FmtArg) (hp : ∀ c ∈ p, c ≠ 37) :
    fmtSprintf (p ++ rest) args = p ++ fmtSprintf rest args := by
  induction p with
  | nil => rfl
  | cons c p ih =>
    have hc : c ≠ 37 := hp c (List.mem_cons_self c p)
    have ht : ∀ d ∈ p, d ≠ 37 := fun d hd => hp d (List.mem_cons_of_mem c hd)
    show fmtSprintf (c :: (p ++ rest)) args = c :: (p ++ fmtSprintf rest args)
    rw [fmtSprintf.eq_def]
    simp [hc, ih ht]

/-- The verb `%s` prints a string operand as it is. -/
theorem fmtSprintf_verb_s (rest s : GoString) (args : List FmtArg) :
    fmtSprintf (lit "%s" ++ rest) (.str s :: args) = s ++ fmtSprintf rest args := by
  have h : lit "%s" = [37, 115] := by decide
  rw [h]
  show fmtSprintf (37 :: 115 :: rest) (.str s :: args) = s ++ fmtSprintf rest args
  rw [fmtSprintf.eq_def]
  simp [FmtArg.render]

/-- At the end of the format nothing more is printed. -/
theorem fmtSprintf_nil (args : List FmtArg) : fmtSprintf [] args = [] := by
  simp [fmtSprintf]

/-- Canonical string built by `signature` when there is no request body. -/
theorem canonical_without_body (method ias url : GoString) :
    fmtSprintf (lit "%s\n\napplication/json\n\nx-ias-sign-nonce:%s\n%s")
        [.str method, .str ias, .str url] =
      method ++ lit "\n\napplication/json\n\nx-ias-sign-nonce:" ++ ias ++ lit "\n" ++ url := by
  have hf : lit "%s\n\napplication/json\n\nx-ias-sign-nonce:%s\n%s" =
      lit "%s" ++ (lit "\n\napplication/json\n\nx-ias-sign-nonce:" ++
        (lit "%s" ++ (lit "\n" ++ (lit "%s" ++ [])))) := by decide
  rw [hf, fmtSprintf_verb_s, fmtSprintf_plain _ _ _ (by decide), fmtSprintf_verb_s,
    fmtSprintf_plain _ _ _ (by decide), fmtSprintf_verb_s, fmtSprintf_nil]
  simp

/-- Canonical string built by `signature` when there is a request body. -/
theorem canonical_with_body (method md5Sign ias url : GoString) :
    fmtSprintf (lit "%s\n%s\napplication/json\n\nx-ias-sign-nonce:%s\n%s")
        [.str method, .str md5Sign, .str ias, .str url] =
      method ++ lit "\n" ++ md5Sign ++ lit "\napplication/json\n\nx-ias-sign-nonce:" ++ ias ++
        lit "\n" ++ url := by
  have hf : lit "%s\n%s\napplication/json\n\nx-ias-sign-nonce:%s\n%s" =
      lit "%s" ++ (lit "\n" ++ (lit "%s" ++ (lit "\napplication/json\n\nx-ias-sign-nonce:" ++
        (lit "%s" ++ (lit "\n" ++ (lit "%s" ++ [])))))) := by decide
  rw [hf, fmtSprintf_verb_s, fmtSprintf_plain _ _ _ (by decide), fmtSprintf_verb_s,
    fmtSprintf_plain _ _ _ (by decide), fmtSprintf_verb_s, fmtSprintf_plain _ _ _ (by decide),
    fmtSprintf_verb_s, fmtSprintf_nil]
  simp

/-- Result of `signature` in closed form. -/
theorem signature_eq (w : World) (mi : MiGlobalIAP) (method url : GoString)
    (payload : List GoString) :
    signature w mi method url payload =
      if 1 ≤ payload.length ∧ payload.getD 0 [] ≠ [] then
        (signatureNonce w payload,
          sha1 mi (method ++ lit "\n" ++ md5 mi (payload.getD 0 []) ++
            lit "\napplication/json\n\nx-ias-sign-nonce:" ++ signatureNonce w payload ++
            lit "\n" ++ url),
          md5 mi (payload.getD 0 []))
      else
        (signatureNonce w payload,
          sha1 mi (method ++ lit "\n\napplication/json\n\nx-ias-sign-nonce:" ++
            signatureNonce w payload ++ lit "\n" ++ url),
          []) := by
  unfold signature signatureNonce
  by_cases h : 1 ≤ payload.length ∧ payload.getD 0 [] ≠ []
  · rw [if_pos h]
    simp only [decide_eq_true h, eq_self_iff_true, if_true, canonical_with_body]
  · rw [if_neg h]
    simp only [decide_eq_false h, Bool.false_eq_true, if_false, canonical_without_body]

/-- Path built by `fmtSprintf` from the request format followed by a suffix
without a percent sign. -/
theorem request_format (suffix region pkg pid token : GoString) (hs : ∀ c ∈ suffix, c ≠ 37) :
    fmtSprintf
        (lit "/%s/developer/v1/applications/%s/purchases/products/%s/tokens/%s" ++ suffix)
        [.str region, .str pkg, .str pid, .str token] =
      lit "/" ++ region ++ lit "/developer/v1/applications/" ++ pkg ++
        lit "/purchases/products/" ++ pid ++ lit "/tokens/" ++ token ++ suffix := by
  have hf : lit "/%s/developer/v1/applications/%s/purchases/products/%s/tokens/%s" =
      lit "/" ++ (lit "%s" ++ (lit "/developer/v1/applications/" ++ (lit "%s" ++
        (lit "/purchases/products/" ++ (lit "%s" ++ (lit "/tokens/" ++ (lit "%s" ++ []))))))) := by
    decide
  rw [hf]
  simp only [List.append_assoc, List.nil_append]
  rw [fmtSprintf_plain _ _ _ (by decide), fmtSprintf_verb_s, fmtSprintf_plain _ _ _ (by decide),
    fmtSprintf_verb_s, fmtSprintf_plain _ _ _ (by decide), fmtSprintf_verb_s,
    fmtSprintf_plain _ _ _ (by decide), fmtSprintf_verb_s]
  have h := fmtSprintf_plain suffix [] [] hs
  rw [fmtSprintf_nil] at h
  simp only [List.append_nil] at h
  rw [h]

/-- The slice `token[1:3]` of a token with at least three bytes. -/
theorem goSlice_region (token : GoString) (h : 3 ≤ token.length) :
    goSlice token 1 3 = some [token[1], token[2]] := by
  match token, h with
  | a :: b :: c :: rest, _ => simp [goSlice]

/-- The entries of the map returned by `buildHeader`, in assignment order. -/
theorem buildHeader_eq (w : World) (mi : MiGlobalIAP) (ias sha1 : GoString)
    (md5 : List GoString) :
    buildHeader w mi ias sha1 md5 =
      if md5.length = 1 then
        [(lit "appId", mi.AppID), (lit "timestamp", strconvItoa w.timeNowUnix),
          (lit "x-ias-sign-nonce", ias), (lit "Content-Type", lit "application/json"),
          (lit "Content-MD5", md5.getD 0 []), (lit "Authorization", lit "ias " ++ sha1)]
      else
        [(lit "appId", mi.AppID), (lit "timestamp", strconvItoa w.timeNowUnix),
          (lit "x-ias-sign-nonce", ias), (lit "Content-Type", lit "application/json"),
          (lit "Authorization", lit "ias " ++ sha1)] := by
  unfold buildHeader
  split <;> rfl

/-- A key has an entry in a map exactly when it is among the map's keys. -/
theorem GoMap.get_isSome_iff (m : GoMap) (k : GoString) :
    (m.get k).isSome ↔ k ∈ m.map Prod.fst := by
  unfold GoMap.get
  induction m with
  | nil => simp
  | cons e rest ih =>
    obtain ⟨k1, v1⟩ := e
    by_cases hk : k = k1
    · subst hk
      simp [List.lookup]
    · have hb : (k == k1) = false := by simpa using hk
      simp [List.lookup, hb, ih, hk]

/-- The three request paths for a token of at least three bytes. -/
theorem buildRequestUrl_valid (mi : MiGlobalIAP) (pid token : GoString) (h : 3 ≤ token.length) :
    purchaseUrl mi pid token =
        some (lit "/" ++ [token[1], token[2]] ++ lit "/developer/v1/applications/" ++
          mi.PackageName ++ lit "/purchases/products/" ++ pid ++ lit "/tokens/" ++ token) ∧
      acknowledgeUrl mi pid token =
        some (lit "/" ++ [token[1], token[2]] ++ lit "/developer/v1/applications/" ++
          mi.PackageName ++ lit "/purchases/products/" ++ pid ++ lit "/tokens/" ++ token ++
          lit ":acknowledge") ∧
      consumeUrl mi pid token =
        some (lit "/" ++ [token[1], token[2]] ++ lit "/developer/v1/applications/" ++
          mi.PackageName ++ lit "/purchases/products/" ++ pid ++ lit "/tokens/" ++ token ++
          lit ":consume") := by
  have hack : lit ":" ++ ACKNOWLEDGE = lit ":acknowledge" := by decide
  have hcon : lit ":" ++ CONSUME = lit ":consume" := by decide
  refine ⟨?_, ?_, ?_⟩
  · have hf := request_format [] [token[1], token[2]] mi.PackageName pid token (by simp)
    simp only [List.append_nil] at hf
    simp [purchaseUrl, buildRequestUrl, goSlice_region token h, hf]
  · have hf := request_format (lit ":acknowledge") [token[1], token[2]] mi.PackageName pid token
      (by decide)
    rw [← hf, ← hack]
    simp [acknowledgeUrl, buildRequestUrl, goSlice_region token h]
  · have hf := request_format (lit ":consume") [token[1], token[2]] mi.PackageName pid token
      (by decide)
    rw [← hf, ← hcon]
    simp [consumeUrl, buildRequestUrl, goSlice_region token h]

/-- A token of at least three bytes passes `verifyToken`. -/
theorem verifyToken_valid (mi : MiGlobalIAP) (token : GoString) (h : 3 ≤ token.length) :
    verifyToken mi token = none := by
  simp [verifyToken]
  omega

/-- The part of each public operation after the call of `request`, in terms of
`interpret`. -/
theorem interpret_request {α : Type} (w : World) (fail : α) (done : List UInt8 → α)
    (method url : GoString) (header : GoMap) (payload : List GoString) :
    (match (request w method url header payload).1.2.2 with
      | some e =>
        some ({ value := fail, err := some e, sent := (request w method url header payload).2 } :
          Outcome α)
      | none =>
        if (request w method url header payload).1.1 ≠ httpStatusOK then
          some { value := fail
                 err := some (.responseError
                   (newResponseError w (request w method url header payload).1.2.1))
                 sent := (request w method url header payload).2 }
        else
          some { value := done (request w method url header payload).1.2.1, err := none
                 sent := (request w method url header payload).2 }) =
      some (interpret w fail done
        { method := method, url := url, header := header,
          body := if payload.length = 1 then some (payload.getD 0 []) else none }
        (w.httpNewRequest method url)) := by
  unfold request interpret
  cases hN : w.httpNewRequest method url with
  | some e => simp only []
  | none =>
    simp only []
    generalize (HttpRequest.mk method url header
      (if payload.length = 1 then some (payload.getD 0 []) else none)) = req
    rcases hD : w.clientDo req with e | ⟨code, e | b⟩
    · simp only []
    · simp only []
    · simp only []
      split <;> rfl

/-- Result of `PurchaseStatus` for a token of at least three bytes. -/
theorem PurchaseStatus_valid (w : World) (mi : MiGlobalIAP) (pid token : GoString)
    (hlen : 3 ≤ token.length) :
    ∃ path, purchaseUrl mi pid token = some path ∧
      PurchaseStatus w mi pid token =
        some (interpret w none (fun b => some (newPurchaseResult w b))
          { method := httpMethodGet, url := mi.BaseUrl ++ path,
            header := buildHeader w mi (signature w mi httpMethodGet path []).1
              (signature w mi httpMethodGet path []).2.1 [],
            body := none }
          (w.httpNewRequest httpMethodGet (mi.BaseUrl ++ path))) := by
  obtain ⟨hp, -, -⟩ := buildRequestUrl_valid mi pid token hlen
  refine ⟨_, hp, ?_⟩
  unfold PurchaseStatus
  rw [verifyToken_valid mi token hlen, hp]
  simp only []
  exact interpret_request w none (fun b => some (newPurchaseResult w b)) _ _ _ []

/-- Result of `Acknowledge` for a token of at least three bytes. -/
theorem Acknowledge_valid (w : World) (mi : MiGlobalIAP) (pid token : GoString)
    (payload : List GoString) (hlen : 3 ≤ token.length) :
    ∃ path, acknowledgeUrl mi pid token = some path ∧
      Acknowledge w mi pid token payload =
        some (interpret w false (fun _ => true)
          { method := httpMethodPost, url := mi.BaseUrl ++ path,
            header := buildHeader w mi (signature w mi httpMethodPost path payload).1
              (signature w mi httpMethodPost path payload).2.1
              [(signature w mi httpMethodPost path payload).2.2],
            body := if payload.length = 1 then some (payload.getD 0 []) else none }
          (w.httpNewRequest httpMethodPost (mi.BaseUrl ++ path))) := by
  obtain ⟨-, hp, -⟩ := buildRequestUrl_valid mi pid token hlen
  refine ⟨_, hp, ?_⟩
  unfold Acknowledge
  rw [verifyToken_valid mi token hlen, hp]
  simp only []
  exact interpret_request w false (fun _ => true) _ _ _ payload

/-- Result of `Consume` for a token of at least three bytes. -/
theorem Consume_valid (w : World) (mi : MiGlobalIAP) (pid token : GoString)
    (payload : List GoString) (hlen : 3 ≤ token.length) :
    ∃ path, consumeUrl mi pid token = some path ∧
      Consume w mi pid token payload =
        some (interpret w false (fun _ => true)
          { method := httpMethodPost, url := mi.BaseUrl ++ path,
            header := buildHeader w mi (signature w mi httpMethodPost path payload).1
              (signature w mi httpMethodPost path payload).2.1
              [(signature w mi httpMethodPost path payload).2.2],
            body := if payload.length = 1 then some (payload.getD 0 []) else none }
          (w.httpNewRequest httpMethodPost (mi.BaseUrl ++ path))) := by
  obtain ⟨-, -, hp⟩ := buildRequestUrl_valid mi pid token hlen
  refine ⟨_, hp, ?_⟩
  unfold Consume
  rw [verifyToken_valid mi token hlen, hp]
  simp only []
  exact interpret_request w false (fun _ => true) _ _ _ payload

/-- A failure of `client.Do` becomes the operation's error. -/
theorem interpret_do_error {α : Type} (w : World) (fail : α) (done : List UInt8 → α)
    (req : HttpRequest) (e : GoError) (hdo : w.clientDo req = .error e) :
    interpret w fail done req none = { value := fail, err := some e, sent := [req] } := by
  unfold interpret
  simp only []
  rw [hdo]

/-- A failure of `io.ReadAll` becomes the operation's error, whatever the
status. -/
theorem interpret_read_error {α : Type} (w : World) (fail : α) (done : List UInt8 → α)
    (req : HttpRequest) (c : Int) (e : GoError) (hdo : w.clientDo req = .ok (c, .error e)) :
    interpret w fail done req none = { value := fail, err := some e, sent := [req] } := by
  unfold interpret
  simp only []
  rw [hdo]

/-- An answer with a status other than 200 becomes the decoded response error. -/
theorem interpret_status_error {α : Type} (w : World) (fail : α) (done : List UInt8 → α)
    (req : HttpRequest) (code : Int) (body : List UInt8)
    (hdo : w.clientDo req = .ok (code, .ok body)) (hcode : code ≠ 200) :
    interpret w fail done req none =
      { value := fail, err := some (.responseError (newResponseError w body)), sent := [req] } := by
  have hc : code ≠ httpStatusOK := hcode
  unfold interpret
  simp only []
  rw [hdo]
  simp only []
  rw [if_pos hc]

/-- An answer with status 200 becomes the success value made from its body. -/
theorem interpret_status_ok {α : Type} (w : World) (fail : α) (done : List UInt8 → α)
    (req : HttpRequest) (body : List UInt8) (hdo : w.clientDo req = .ok (200, .ok body)) :
    interpret w fail done req none = { value := done body, err := none, sent := [req] } := by
  have hc : ¬ ((200 : Int) ≠ httpStatusOK) := fun h => h rfl
  unfold interpret
  simp only []
  rw [hdo]
  simp only []
  rw [if_neg hc]

/-- Text without `#` has no fragment to cut. -/
theorem urlBeforeFragment_self (u : GoString) (h : (35 : UInt8) ∉ u) :
    urlBeforeFragment u = u := by
  unfold urlBeforeFragment
  induction u with
  | nil => rfl
  | cons c rest ih =>
    have hc : c ≠ 35 := fun hc => h (hc ▸ List.mem_cons_self c rest)
    have hr : (35 : UInt8) ∉ rest := fun hr => h (List.mem_cons_of_mem c hr)
    rw [List.takeWhile_cons, ih hr]
    simp [hc]

/-- The first `#` and everything after it are cut. -/
theorem urlBeforeFragment_cut (a b : GoString) (h : (35 : UInt8) ∉ a) :
    urlBeforeFragment (a ++ 35 :: b) = a := by
  unfold urlBeforeFragment
  induction a with
  | nil => simp [List.takeWhile]
  | cons c rest ih =>
    have hc : c ≠ 35 := fun hc => h (hc ▸ List.mem_cons_self c rest)
    have hr : (35 : UInt8) ∉ rest := fun hr => h (List.mem_cons_of_mem c hr)
    rw [List.cons_append, List.takeWhile_cons, ih hr]
    simp [hc]

/-- The requests recorded by `interpret`: none when `http.NewRequest` failed,
the one request otherwise. -/
theorem interpret_sent {α : Type} (w : World) (fail : α) (done : List UInt8 → α)
    (req : HttpRequest) (nre : Option GoError) :
    (interpret w fail done req nre).sent = if nre = none then [req] else [] := by
  unfold interpret
  cases nre with
  | some e => rfl
  | none =>
    simp only [if_true]
    rcases hD : w.clientDo req with e | ⟨c, e | b⟩
    · rfl
    · rfl
    · simp only []
      split <;> rfl

/-- Every request recorded by `interpret` is the request it was given. -/
theorem interpret_sent_mem {α : Type} (w : World) (fail : α) (done : List UInt8 → α)
    (req : HttpRequest) (nre : Option GoError) :
    ∀ r ∈ (interpret w fail done req nre).sent, r = req := by
  intro r hr
  rw [interpret_sent] at hr
  split at hr
  · simpa using hr
  · simp at hr

/-- The status-query path of the package's tests. -/
theorem fixture_purchase_path (id key : GoString) (url : List GoString) :
    purchaseUrl (New id key (lit "MTIzNDU2Nzg5MA==") (lit "com.iap.test") url) (lit "game-10")
        (lit "PID220706155637286289388715727088") =
      some (lit "/ID/developer/v1/applications/com.iap.test/purchases/products/game-10/tokens/PID220706155637286289388715727088") := by
  have hpk : (New id key (lit "MTIzNDU2Nzg5MA==") (lit "com.iap.test") url).PackageName =
      lit "com.iap.test" := rfl
  rw [(buildRequestUrl_valid _ (lit "game-10") (lit "PID220706155637286289388715727088") (by decide)).1, hpk]
  decide!

/-- The consume path of the package's tests. -/
theorem fixture_consume_path (id key : GoString) (url : List GoString) :
    consumeUrl (New id key (lit "MTIzNDU2Nzg5MA==") (lit "com.iap.test") url) (lit "game-10")
        (lit "PID220706155637286289388715727088") =
      some (lit "/ID/developer/v1/applications/com.iap.test/purchases/products/game-10/tokens/PID220706155637286289388715727088:consume") := by
  have hpk : (New id key (lit "MTIzNDU2Nzg5MA==") (lit "com.iap.test") url).PackageName =
      lit "com.iap.test" := rfl
  rw [(buildRequestUrl_valid _ (lit "game-10") (lit "PID220706155637286289388715727088") (by decide)).2.2, hpk]
  decide!

/-- HMAC-SHA1 of the canonical string of the status-query test. -/
theorem fixture_get_mac :
    base64StdEncodeToString (hmacSha1 (lit "MTIzNDU2Nzg5MA==")
        (httpMethodGet ++ lit "\n\napplication/json\n\nx-ias-sign-nonce:" ++
          lit "8420674727e94e7cabff27ac66db5c5d" ++ lit "\n" ++
          lit "/ID/developer/v1/applications/com.iap.test/purchases/products/game-10/tokens/PID220706155637286289388715727088")) =
      lit "J5yTx/APWWoOhF4owiRbQaqgang=" := by
  decide!

/-- Upper-cased base64 MD5 of the body of the consume test. -/
theorem fixture_body_digest :
    stringsToUpper (base64StdEncodeToString (md5Sum (lit "\x7b\"developerPayload\":\"test\"\x7d"))) =
      lit "HPJWVBUIVADK4Q9UJB0MTG==" := by
  decide!

/-- HMAC-SHA1 of the canonical string of the consume test. -/
theorem fixture_post_mac :
    base64StdEncodeToString (hmacSha1 (lit "MTIzNDU2Nzg5MA==")
        (httpMethodPost ++ lit "\n" ++ lit "HPJWVBUIVADK4Q9UJB0MTG==" ++
          lit "\napplication/json\n\nx-ias-sign-nonce:" ++
          lit "4e0f4db3558b4eab94092543988947d9" ++ lit "\n" ++
          lit "/ID/developer/v1/applications/com.iap.test/purchases/products/game-10/tokens/PID220706155637286289388715727088:consume")) =
      lit "sc/oyzmvcfItnyqQqJy8l+FAN2Y=" := by
  decide!

/-! ## The claims -/

/-- Claim C1: when `signature` is called without a request body (no payload
argument, or an empty first payload string), the signature it returns is the
base64 HMAC-SHA1, keyed by `AppSecret`, of
`method + "\n\napplication/json\n\nx-ias-sign-nonce:" + nonce + "\n" + url`
for the nonce it returns, and the content digest it returns is empty. -/
theorem signature_without_body (w : World) (mi : MiGlobalIAP) (method url : GoString)
    (payload : List GoString) (h : payload = [] ∨ payload.head? = some []) :
    (signature w mi method url payload).2.1 =
        base64StdEncodeToString (hmacSha1 mi.AppSecret
          (method ++ lit "\n\napplication/json\n\nx-ias-sign-nonce:" ++
            (signature w mi method url payload).1 ++ lit "\n" ++ url)) ∧
      (signature w mi method url payload).2.2 = [] := by
  have hno : ¬ (1 ≤ payload.length ∧ payload.getD 0 [] ≠ []) := by
    rcases h with h | h
    · subst h
      simp
    · cases payload with
      | nil => simp
      | cons b rest =>
        have hb : b = [] := by simpa using h
        subst hb
        simp
  rw [signature_eq, if_neg hno]
  exact ⟨rfl, rfl⟩

/-- Claim C1 at a concrete call: `GET` with an empty first payload string. -/
theorem signature_without_body_witness :
    ([[]] : List GoString).head? = some [] ∧
      (signature (sampleWorld 200 []) sampleClient httpMethodGet (lit "/p") [[]]).2.2 = [] :=
  ⟨rfl, (signature_without_body (sampleWorld 200 []) sampleClient httpMethodGet (lit "/p") [[]]
    (Or.inr rfl)).2⟩

/-- Claim C2: when the first payload string `B` is not empty, `signature`
returns the content digest `D`, the upper-cased base64 MD5 of `B`, and the
signature is the base64 HMAC-SHA1, keyed by `AppSecret`, of
`method + "\n" + D + "\napplication/json\n\nx-ias-sign-nonce:" + nonce + "\n" + url`
for the nonce it returns. -/
theorem signature_with_body (w : World) (mi : MiGlobalIAP) (method url B : GoString)
    (more : List GoString) (hB : B ≠ []) :
    (signature w mi method url (B :: more)).2.2 =
        stringsToUpper (base64StdEncodeToString (md5Sum B)) ∧
      (signature w mi method url (B :: more)).2.1 =
        base64StdEncodeToString (hmacSha1 mi.AppSecret
          (method ++ lit "\n" ++ stringsToUpper (base64StdEncodeToString (md5Sum B)) ++
            lit "\napplication/json\n\nx-ias-sign-nonce:" ++
            (signature w mi method url (B :: more)).1 ++ lit "\n" ++ url)) := by
  have hyes : 1 ≤ (B :: more).length ∧ (B :: more).getD 0 [] ≠ [] := by
    simpa using hB
  rw [signature_eq, if_pos hyes]
  exact ⟨rfl, rfl⟩

/-- Claim C2 at a concrete call: `POST` with a one-byte body. -/
theorem signature_with_body_witness :
    ([120] : GoString) ≠ [] ∧
      (signature (sampleWorld 200 []) sampleClient httpMethodPost (lit "/p") [[120]]).2.2 =
        stringsToUpper (base64StdEncodeToString (md5Sum [120])) :=
  ⟨by decide, (signature_with_body (sampleWorld 200 []) sampleClient httpMethodPost (lit "/p")
    [120] [] (by decide)).1⟩

/-- Claim C3: for a token of at least three bytes the request path is
`"/" + region + "/developer/v1/applications/" + packageName +
"/purchases/products/" + productId + "/tokens/" + token` with `region` the
bytes of the token at positions 1 and 2; `purchaseUrl` adds nothing,
`acknowledgeUrl` appends `":acknowledge"`, `consumeUrl` appends `":consume"`;
the region of the test token is `"ID"`. -/
theorem request_paths (mi : MiGlobalIAP) (pid token : GoString) (h : 3 ≤ token.length) :
    purchaseUrl mi pid token =
        some (lit "/" ++ [token[1], token[2]] ++ lit "/developer/v1/applications/" ++
          mi.PackageName ++ lit "/purchases/products/" ++ pid ++ lit "/tokens/" ++ token) ∧
      acknowledgeUrl mi pid token =
        some (lit "/" ++ [token[1], token[2]] ++ lit "/developer/v1/applications/" ++
          mi.PackageName ++ lit "/purchases/products/" ++ pid ++ lit "/tokens/" ++ token ++
          lit ":acknowledge") ∧
      consumeUrl mi pid token =
        some (lit "/" ++ [token[1], token[2]] ++ lit "/developer/v1/applications/" ++
          mi.PackageName ++ lit "/purchases/products/" ++ pid ++ lit "/tokens/" ++ token ++
          lit ":consume") ∧
      goSlice (lit "PID220706155637286289388715727088") 1 3 = some (lit "ID") := by
  obtain ⟨hp, ha, hc⟩ := buildRequestUrl_valid mi pid token h
  exact ⟨hp, ha, hc, by decide⟩

/-- Claim C3 at the token of the package's tests. -/
theorem request_paths_witness :
    3 ≤ (lit "PID220706155637286289388715727088").length ∧
      purchaseUrl sampleClient (lit "game-10") (lit "PID220706155637286289388715727088") =
        some (lit "/ID/developer/v1/applications/com.iap.test/purchases/products/game-10/tokens/PID220706155637286289388715727088") :=
  ⟨by decide, by
    have h := (request_paths sampleClient (lit "game-10")
      (lit "PID220706155637286289388715727088") (by decide)).1
    rw [h]
    decide!⟩

/-- Claim C4: for a token shorter than three bytes `PurchaseStatus`,
`Acknowledge` and `Consume` return the validation error with a nil result or
`false`, and no request is handed to the HTTP client. -/
theorem short_token_rejected (w : World) (mi : MiGlobalIAP) (pid token : GoString)
    (payload : List GoString) (h : token.length < 3) :
    PurchaseStatus w mi pid token =
        some { value := none, err := some (.errorsNew (lit "token error")), sent := [] } ∧
      Acknowledge w mi pid token payload =
        some { value := false, err := some (.errorsNew (lit "token error")), sent := [] } ∧
      Consume w mi pid token payload =
        some { value := false, err := some (.errorsNew (lit "token error")), sent := [] } := by
  refine ⟨?_, ?_, ?_⟩
  · simp [PurchaseStatus, verifyToken, h]
  · simp [Acknowledge, verifyToken, h]
  · simp [Consume, verifyToken, h]

/-- Claim C4 at the two-byte token `"PI"`. -/
theorem short_token_rejected_witness :
    (lit "PI").length < 3 ∧
      Consume (sampleWorld 200 []) sampleClient (lit "game-10") (lit "PI") [] =
        some { value := false, err := some (.errorsNew (lit "token error")), sent := [] } :=
  ⟨by decide, (short_token_rejected (sampleWorld 200 []) sampleClient (lit "game-10") (lit "PI") []
    (by decide)).2.2⟩

/-- Claim C5, as stated, fails: `Acknowledge` called with a valid token and no
payload signs an empty content digest, and the one request it sends carries a
`Content-MD5` entry all the same, with the empty string as value. -/
theorem content_md5_sent_for_empty_digest :
    (signature (sampleWorld 200 []) sampleClient httpMethodPost
        (lit "/ID/developer/v1/applications/com.iap.test/purchases/products/game-10/tokens/PID220706155637286289388715727088:acknowledge")
        []).2.2 = [] ∧
      (Acknowledge (sampleWorld 200 []) sampleClient (lit "game-10")
        (lit "PID220706155637286289388715727088") []).map
          (fun o => o.sent.map fun r => r.header.get (lit "Content-MD5")) = some [some []] := by
  decide!

/-- Claim C5, amended: the map returned by `buildHeader` has a `Content-MD5`
entry exactly when one content-digest argument is handed over, empty or not,
and the entry's value is that argument.  For a token of at least three bytes
the request `PurchaseStatus` hands to `client.Do` has no `Content-MD5` entry,
and the request `Acknowledge` or `Consume` hands to `client.Do` always has
one, whose value is the digest returned by `signature`: the digest of the
first payload argument when that is not empty, the empty string otherwise. -/
theorem content_md5_entry (w : World) (mi : MiGlobalIAP) (ias sha1 d pid token : GoString)
    (digests payload : List GoString) :
    (buildHeader w mi ias sha1 digests).get (lit "Content-MD5") =
        (if digests.length = 1 then some (digests.getD 0 []) else none) ∧
      (buildHeader w mi ias sha1 []).get (lit "Content-MD5") = none ∧
      (buildHeader w mi ias sha1 [d]).get (lit "Content-MD5") = some d ∧
      (3 ≤ token.length →
        (∃ path o, purchaseUrl mi pid token = some path ∧
          PurchaseStatus w mi pid token = some o ∧
          o.sent =
            (if w.httpNewRequest httpMethodGet (mi.BaseUrl ++ path) = none then
              [{ method := httpMethodGet, url := mi.BaseUrl ++ path,
                 header := buildHeader w mi (signature w mi httpMethodGet path []).1
                   (signature w mi httpMethodGet path []).2.1 [],
                 body := none }]
            else []) ∧
          (buildHeader w mi (signature w mi httpMethodGet path []).1
              (signature w mi httpMethodGet path []).2.1 []).get (lit "Content-MD5") = none) ∧
        (∃ path o, acknowledgeUrl mi pid token = some path ∧
          Acknowledge w mi pid token payload = some o ∧
          o.sent =
            (if w.httpNewRequest httpMethodPost (mi.BaseUrl ++ path) = none then
              [{ method := httpMethodPost, url := mi.BaseUrl ++ path,
                 header := buildHeader w mi (signature w mi httpMethodPost path payload).1
                   (signature w mi httpMethodPost path payload).2.1
                   [(signature w mi httpMethodPost path payload).2.2],
                 body := if payload.length = 1 then some (payload.getD 0 []) else none }]
            else []) ∧
          (buildHeader w mi (signature w mi httpMethodPost path payload).1
              (signature w mi httpMethodPost path payload).2.1
              [(signature w mi httpMethodPost path payload).2.2]).get (lit "Content-MD5") =
            some (signature w mi httpMethodPost path payload).2.2 ∧
          (signature w mi httpMethodPost path payload).2.2 =
            (if 1 ≤ payload.length ∧ payload.getD 0 [] ≠ [] then md5 mi (payload.getD 0 [])
              else [])) ∧
        (∃ path o, consumeUrl mi pid token = some path ∧
          Consume w mi pid token payload = some o ∧
          o.sent =
            (if w.httpNewRequest httpMethodPost (mi.BaseUrl ++ path) = none then
              [{ method := httpMethodPost, url := mi.BaseUrl ++ path,
                 header := buildHeader w mi (signature w mi httpMethodPost path payload).1
                   (signature w mi httpMethodPost path payload).2.1
                   [(signature w mi httpMethodPost path payload).2.2],
                 body := if payload.length = 1 then some (payload.getD 0 []) else none }]
            else []) ∧
          (buildHeader w mi (signature w mi httpMethodPost path payload).1
              (signature w mi httpMethodPost path payload).2.1
              [(signature w mi httpMethodPost path payload).2.2]).get (lit "Content-MD5") =
            some (signature w mi httpMethodPost path payload).2.2 ∧
          (signature w mi httpMethodPost path payload).2.2 =
            (if 1 ≤ payload.length ∧ payload.getD 0 [] ≠ [] then md5 mi (payload.getD 0 [])
              else []))) := by
  refine ⟨?_, ?_, ?_, fun hlen => ⟨?_, ?_, ?_⟩⟩
  · rw [buildHeader_eq]
    split <;> rfl
  · rw [buildHeader_eq]
    rfl
  · rw [buildHeader_eq]
    rfl
  · obtain ⟨path, hp, hv⟩ := PurchaseStatus_valid w mi pid token hlen
    refine ⟨path, _, hp, hv, interpret_sent _ _ _ _ _, ?_⟩
    rw [buildHeader_eq]
    rfl
  · obtain ⟨path, hp, hv⟩ := Acknowledge_valid w mi pid token payload hlen
    refine ⟨path, _, hp, hv, interpret_sent _ _ _ _ _, ?_, ?_⟩
    · rw [buildHeader_eq]
      rfl
    · rw [signature_eq]
      split <;> rfl
  · obtain ⟨path, hp, hv⟩ := Consume_valid w mi pid token payload hlen
    refine ⟨path, _, hp, hv, interpret_sent _ _ _ _ _, ?_, ?_⟩
    · rw [buildHeader_eq]
      rfl
    · rw [signature_eq]
      split <;> rfl

/-- Claim C5, amended, at `Acknowledge` without payload and the token of the
package's tests: one request is sent and it has an empty `Content-MD5`. -/
theorem content_md5_entry_witness :
    3 ≤ (lit "PID220706155637286289388715727088").length ∧
      ∃ o, Acknowledge (sampleWorld 200 []) sampleClient (lit "game-10")
          (lit "PID220706155637286289388715727088") [] = some o ∧
        o.sent.map (fun r => r.header.get (lit "Content-MD5")) = [some []] := by
  refine ⟨by decide, ?_⟩
  obtain ⟨-, ⟨path, o, -, ho, hsent, hget, hdig⟩, -⟩ :=
    (content_md5_entry (sampleWorld 200 []) sampleClient [] [] [] (lit "game-10")
      (lit "PID220706155637286289388715727088") [] []).2.2.2 (by decide)
  have hnew : (sampleWorld 200 []).httpNewRequest httpMethodPost
      (sampleClient.BaseUrl ++ path) = none := rfl
  refine ⟨o, ho, ?_⟩
  rw [hsent, if_pos hnew, List.map_cons, List.map_nil]
  simp only []
  rw [hget, hdig]
  rfl

/-- Claim C6: the map returned by `buildHeader` gives `appId` the application
identifier, `timestamp` the decimal text of the current Unix time,
`x-ias-sign-nonce` the nonce, `Content-Type` the text `application/json` and
`Authorization` the text `"ias "` followed by the signature; its keys are
these five and, when one content digest is handed over, `Content-MD5`, and
no other. -/
theorem buildHeader_entries (w : World) (mi : MiGlobalIAP) (ias sha1 : GoString)
    (md5 : List GoString) :
    (buildHeader w mi ias sha1 md5).get (lit "appId") = some mi.AppID ∧
      (buildHeader w mi ias sha1 md5).get (lit "timestamp") = some (strconvItoa w.timeNowUnix) ∧
      (buildHeader w mi ias sha1 md5).get (lit "x-ias-sign-nonce") = some ias ∧
      (buildHeader w mi ias sha1 md5).get (lit "Content-Type") = some (lit "application/json") ∧
      (buildHeader w mi ias sha1 md5).get (lit "Authorization") = some (lit "ias " ++ sha1) ∧
      strconvItoa 1664553600 = lit "1664553600" ∧
      ∀ k : GoString, ((buildHeader w mi ias sha1 md5).get k).isSome ↔
        (k ∈ [lit "appId", lit "timestamp", lit "x-ias-sign-nonce", lit "Content-Type",
            lit "Authorization"] ∨
          (k = lit "Content-MD5" ∧ md5.length = 1)) := by
  refine ⟨?_, ?_, ?_, ?_, ?_, by decide, ?_⟩
  · rw [buildHeader_eq]
    split <;> rfl
  · rw [buildHeader_eq]
    split <;> rfl
  · rw [buildHeader_eq]
    split <;> rfl
  · rw [buildHeader_eq]
    split <;> rfl
  · rw [buildHeader_eq]
    split <;> rfl
  · intro k
    rw [GoMap.get_isSome_iff, buildHeader_eq]
    split
    · rename_i h1
      simp only [List.map, List.mem_cons, List.mem_nil_iff, or_false, h1, and_true]
      tauto
    · rename_i h1
      simp only [List.map, List.mem_cons, List.mem_nil_iff, or_false, h1, and_false]

/-- Claim C7: for a token of at least three bytes, when `http.NewRequest`
succeeds and the request the operation builds is answered, without error,
with a status other than 200, the operation returns a nil result or `false`
together with the `ResponseError` decoded from the answer's body, after
handing exactly that one request to `client.Do`; it never returns a success. -/
theorem non_ok_status_is_response_error (w : World) (mi : MiGlobalIAP) (pid token : GoString)
    (payload : List GoString) (code : Int) (body : List UInt8)
    (hlen : 3 ≤ token.length) (hcode : code ≠ 200) :
    (∃ path, purchaseUrl mi pid token = some path ∧
        (w.httpNewRequest httpMethodGet (mi.BaseUrl ++ path) = none →
          w.clientDo
              { method := httpMethodGet, url := mi.BaseUrl ++ path,
                header := buildHeader w mi (signature w mi httpMethodGet path []).1
                  (signature w mi httpMethodGet path []).2.1 [],
                body := none } =
            .ok (code, .ok body) →
          PurchaseStatus w mi pid token =
            some { value := none, err := some (.responseError (newResponseError w body)),
                   sent := [{ method := httpMethodGet, url := mi.BaseUrl ++ path,
                              header := buildHeader w mi (signature w mi httpMethodGet path []).1
                                (signature w mi httpMethodGet path []).2.1 [],
                              body := none }] })) ∧
      (∃ path, acknowledgeUrl mi pid token = some path ∧
        (w.httpNewRequest httpMethodPost (mi.BaseUrl ++ path) = none →
          w.clientDo
              { method := httpMethodPost, url := mi.BaseUrl ++ path,
                header := buildHeader w mi (signature w mi httpMethodPost path payload).1
                  (signature w mi httpMethodPost path payload).2.1
                  [(signature w mi httpMethodPost path payload).2.2],
                body := if payload.length = 1 then some (payload.getD 0 []) else none } =
            .ok (code, .ok body) →
          Acknowledge w mi pid token payload =
            some { value := false, err := some (.responseError (newResponseError w body)),
                   sent := [{ method := httpMethodPost, url := mi.BaseUrl ++ path,
                              header := buildHeader w mi (signature w mi httpMethodPost path payload).1
                                (signature w mi httpMethodPost path payload).2.1
                                [(signature w mi httpMethodPost path payload).2.2],
                              body := if payload.length = 1 then some (payload.getD 0 []) else none }] })) ∧
      (∃ path, consumeUrl mi pid token = some path ∧
        (w.httpNewRequest httpMethodPost (mi.BaseUrl ++ path) = none →
          w.clientDo
              { method := httpMethodPost, url := mi.BaseUrl ++ path,
                header := buildHeader w mi (signature w mi httpMethodPost path payload).1
                  (signature w mi httpMethodPost path payload).2.1
                  [(signature w mi httpMethodPost path payload).2.2],
                body := if payload.length = 1 then some (payload.getD 0 []) else none } =
            .ok (code, .ok body) →
          Consume w mi pid token payload =
            some { value := false, err := some (.responseError (newResponseError w body)),
                   sent := [{ method := httpMethodPost, url := mi.BaseUrl ++ path,
                              header := buildHeader w mi (signature w mi httpMethodPost path payload).1
                                (signature w mi httpMethodPost path payload).2.1
                                [(signature w mi httpMethodPost path payload).2.2],
                              body := if payload.length = 1 then some (payload.getD 0 []) else none }] })) := by
  refine ⟨?_, ?_, ?_⟩
  · obtain ⟨path, hp, hv⟩ := PurchaseStatus_valid w mi pid token hlen
    refine ⟨path, hp, fun hnew hdo => ?_⟩
    rw [hv, hnew, interpret_status_error w _ _ _ code body hdo hcode]
  · obtain ⟨path, hp, hv⟩ := Acknowledge_valid w mi pid token payload hlen
    refine ⟨path, hp, fun hnew hdo => ?_⟩
    rw [hv, hnew, interpret_status_error w _ _ _ code body hdo hcode]
  · obtain ⟨path, hp, hv⟩ := Consume_valid w mi pid token payload hlen
    refine ⟨path, hp, fun hnew hdo => ?_⟩
    rw [hv, hnew, interpret_status_error w _ _ _ code body hdo hcode]

/-- Claim C7 at the three operations answered with 404 and an error body. -/
theorem non_ok_status_is_response_error_witness :
    3 ≤ (lit "PID220706155637286289388715727088").length ∧ (404 : Int) ≠ 200 ∧
      (PurchaseStatus (sampleWorld 404 (lit "\x7b\"code\":404,\"message\":\"gone\"\x7d"))
          sampleClient (lit "game-10") (lit "PID220706155637286289388715727088")).map
          (fun o => (o.value, o.err, o.sent.length)) =
        some (none, some (.responseError (newResponseError
          (sampleWorld 404 (lit "\x7b\"code\":404,\"message\":\"gone\"\x7d"))
          (lit "\x7b\"code\":404,\"message\":\"gone\"\x7d"))), 1) ∧
      (Acknowledge (sampleWorld 404 (lit "\x7b\"code\":404,\"message\":\"gone\"\x7d"))
          sampleClient (lit "game-10") (lit "PID220706155637286289388715727088")
          [lit "\x7b\"developerPayload\":\"test\"\x7d"]).map
          (fun o => (o.value, o.err, o.sent.length)) =
        some (false, some (.responseError (newResponseError
          (sampleWorld 404 (lit "\x7b\"code\":404,\"message\":\"gone\"\x7d"))
          (lit "\x7b\"code\":404,\"message\":\"gone\"\x7d"))), 1) ∧
      (Consume (sampleWorld 404 (lit "\x7b\"code\":404,\"message\":\"gone\"\x7d"))
          sampleClient (lit "game-10") (lit "PID220706155637286289388715727088")
          [lit "\x7b\"developerPayload\":\"test\"\x7d"]).map
          (fun o => (o.value, o.err, o.sent.length)) =
        some (false, some (.responseError (newResponseError
          (sampleWorld 404 (lit "\x7b\"code\":404,\"message\":\"gone\"\x7d"))
          (lit "\x7b\"code\":404,\"message\":\"gone\"\x7d"))), 1) := by
  obtain ⟨⟨_, -, h1⟩, ⟨_, -, h2⟩, ⟨_, -, h3⟩⟩ := non_ok_status_is_response_error
    (sampleWorld 404 (lit "\x7b\"code\":404,\"message\":\"gone\"\x7d")) sampleClient
    (lit "game-10") (lit "PID220706155637286289388715727088") [lit "\x7b\"developerPayload\":\"test\"\x7d"] 404
    (lit "\x7b\"code\":404,\"message\":\"gone\"\x7d") (by decide) (by decide)
  refine ⟨by decide, by decide, ?_, ?_, ?_⟩
  · rw [h1 rfl rfl]
    rfl
  · rw [h2 rfl rfl]
    rfl
  · rw [h3 rfl rfl]
    rfl

/-- Claim C8: for a token of at least three bytes, when `http.NewRequest`
succeeds and the request the operation builds is answered, without error,
with status 200, the operation returns a nil error whatever the body is,
after handing exactly that one request to `client.Do`: `PurchaseStatus`
returns the `PurchaseResult` decoded from the body, `Acknowledge` and
`Consume` return `true`. -/
theorem ok_status_is_success (w : World) (mi : MiGlobalIAP) (pid token : GoString)
    (payload : List GoString) (body : List UInt8) (hlen : 3 ≤ token.length) :
    (∃ path, purchaseUrl mi pid token = some path ∧
        (w.httpNewRequest httpMethodGet (mi.BaseUrl ++ path) = none →
          w.clientDo
              { method := httpMethodGet, url := mi.BaseUrl ++ path,
                header := buildHeader w mi (signature w mi httpMethodGet path []).1
                  (signature w mi httpMethodGet path []).2.1 [],
                body := none } =
            .ok (200, .ok body) →
          PurchaseStatus w mi pid token =
            some { value := some (newPurchaseResult w body), err := none,
                   sent := [{ method := httpMethodGet, url := mi.BaseUrl ++ path,
                              header := buildHeader w mi (signature w mi httpMethodGet path []).1
                                (signature w mi httpMethodGet path []).2.1 [],
                              body := none }] })) ∧
      (∃ path, acknowledgeUrl mi pid token = some path ∧
        (w.httpNewRequest httpMethodPost (mi.BaseUrl ++ path) = none →
          w.clientDo
              { method := httpMethodPost, url := mi.BaseUrl ++ path,
                header := buildHeader w mi (signature w mi httpMethodPost path payload).1
                  (signature w mi httpMethodPost path payload).2.1
                  [(signature w mi httpMethodPost path payload).2.2],
                body := if payload.length = 1 then some (payload.getD 0 []) else none } =
            .ok (200, .ok body) →
          Acknowledge w mi pid token payload =
            some { value := true, err := none,
                   sent := [{ method := httpMethodPost, url := mi.BaseUrl ++ path,
                              header := buildHeader w mi (signature w mi httpMethodPost path payload).1
                                (signature w mi httpMethodPost path payload).2.1
                                [(signature w mi httpMethodPost path payload).2.2],
                              body := if payload.length = 1 then some (payload.getD 0 []) else none }] })) ∧
      (∃ path, consumeUrl mi pid token = some path ∧
        (w.httpNewRequest httpMethodPost (mi.BaseUrl ++ path) = none →
          w.clientDo
              { method := httpMethodPost, url := mi.BaseUrl ++ path,
                header := buildHeader w mi (signature w mi httpMethodPost path payload).1
                  (signature w mi httpMethodPost path payload).2.1
                  [(signature w mi httpMethodPost path payload).2.2],
                body := if payload.length = 1 then some (payload.getD 0 []) else none } =
            .ok (200, .ok body) →
          Consume w mi pid token payload =
            some { value := true, err := none,
                   sent := [{ method := httpMethodPost, url := mi.BaseUrl ++ path,
                              header := buildHeader w mi (signature w mi httpMethodPost path payload).1
                                (signature w mi httpMethodPost path payload).2.1
                                [(signature w mi httpMethodPost path payload).2.2],
                              body := if payload.length = 1 then some (payload.getD 0 []) else none }] })) := by
  refine ⟨?_, ?_, ?_⟩
  · obtain ⟨path, hp, hv⟩ := PurchaseStatus_valid w mi pid token hlen
    refine ⟨path, hp, fun hnew hdo => ?_⟩
    rw [hv, hnew, interpret_status_ok w _ _ _ body hdo]
  · obtain ⟨path, hp, hv⟩ := Acknowledge_valid w mi pid token payload hlen
    refine ⟨path, hp, fun hnew hdo => ?_⟩
    rw [hv, hnew, interpret_status_ok w _ _ _ body hdo]
  · obtain ⟨path, hp, hv⟩ := Consume_valid w mi pid token payload hlen
    refine ⟨path, hp, fun hnew hdo => ?_⟩
    rw [hv, hnew, interpret_status_ok w _ _ _ body hdo]

/-- Claim C8 at the three operations answered with 200 and an error-shaped
body. -/
theorem ok_status_is_success_witness :
    3 ≤ (lit "PID220706155637286289388715727088").length ∧
      (PurchaseStatus (sampleWorld 200 (lit "\x7b\"code\":404,\"message\":\"gone\"\x7d"))
          sampleClient (lit "game-10") (lit "PID220706155637286289388715727088")).map
          (fun o => (o.value, o.err, o.sent.length)) =
        some (some (newPurchaseResult
          (sampleWorld 200 (lit "\x7b\"code\":404,\"message\":\"gone\"\x7d"))
          (lit "\x7b\"code\":404,\"message\":\"gone\"\x7d")), none, 1) ∧
      (Acknowledge (sampleWorld 200 (lit "\x7b\"code\":404,\"message\":\"gone\"\x7d"))
          sampleClient (lit "game-10") (lit "PID220706155637286289388715727088")
          [lit "\x7b\"developerPayload\":\"test\"\x7d"]).map
          (fun o => (o.value, o.err, o.sent.length)) = some (true, none, 1) ∧
      (Consume (sampleWorld 200 (lit "\x7b\"code\":404,\"message\":\"gone\"\x7d"))
          sampleClient (lit "game-10") (lit "PID220706155637286289388715727088")
          [lit "\x7b\"developerPayload\":\"test\"\x7d"]).map
          (fun o => (o.value, o.err, o.sent.length)) = some (true, none, 1) := by
  obtain ⟨⟨_, -, h1⟩, ⟨_, -, h2⟩, ⟨_, -, h3⟩⟩ := ok_status_is_success
    (sampleWorld 200 (lit "\x7b\"code\":404,\"message\":\"gone\"\x7d")) sampleClient
    (lit "game-10") (lit "PID220706155637286289388715727088") [lit "\x7b\"developerPayload\":\"test\"\x7d"]
    (lit "\x7b\"code\":404,\"message\":\"gone\"\x7d") (by decide)
  refine ⟨by decide, ?_, ?_, ?_⟩
  · rw [h1 rfl rfl]
    rfl
  · rw [h2 rfl rfl]
    rfl
  · rw [h3 rfl rfl]
    rfl

/-- Claim C9: with the secret `MTIzNDU2Nzg5MA==`, the package name
`com.iap.test`, method `GET`, an empty body, the override nonce
`8420674727e94e7cabff27ac66db5c5d` and the status-query path of product
`game-10` and token `PID220706155637286289388715727088`, `signature` returns
the signature `J5yTx/APWWoOhF4owiRbQaqgang=`. -/
theorem fixture_get_signature (w : World) (id key : GoString) (url : List GoString) :
    (purchaseUrl (New id key (lit "MTIzNDU2Nzg5MA==") (lit "com.iap.test") url) (lit "game-10")
        (lit "PID220706155637286289388715727088")).map
        (fun path =>
          (signature w (New id key (lit "MTIzNDU2Nzg5MA==") (lit "com.iap.test") url)
            httpMethodGet path [lit "", lit "8420674727e94e7cabff27ac66db5c5d"]).2.1) =
      some (lit "J5yTx/APWWoOhF4owiRbQaqgang=") := by
  rw [fixture_purchase_path, Option.map_some', signature_eq, if_neg (by decide)]
  have hn : signatureNonce w [lit "", lit "8420674727e94e7cabff27ac66db5c5d"] =
      lit "8420674727e94e7cabff27ac66db5c5d" := by
    unfold signatureNonce
    rw [if_pos (by decide)]
    rfl
  rw [hn]
  exact congrArg some fixture_get_mac

/-- Claim C10: with the same secret and package name, method `POST`, the body
`\x7b"developerPayload":"test"\x7d`, the override nonce
`4e0f4db3558b4eab94092543988947d9` and the consume path of product `game-10`
and token `PID220706155637286289388715727088`, `signature` returns the content
digest `HPJWVBUIVADK4Q9UJB0MTG==` and the signature
`sc/oyzmvcfItnyqQqJy8l+FAN2Y=`. -/
theorem fixture_post_signature (w : World) (id key : GoString) (url : List GoString) :
    (consumeUrl (New id key (lit "MTIzNDU2Nzg5MA==") (lit "com.iap.test") url) (lit "game-10")
        (lit "PID220706155637286289388715727088")).map
        (fun path =>
          ((signature w (New id key (lit "MTIzNDU2Nzg5MA==") (lit "com.iap.test") url)
            httpMethodPost path
            [lit "\x7b\"developerPayload\":\"test\"\x7d", lit "4e0f4db3558b4eab94092543988947d9"]).2.2,
           (signature w (New id key (lit "MTIzNDU2Nzg5MA==") (lit "com.iap.test") url)
            httpMethodPost path
            [lit "\x7b\"developerPayload\":\"test\"\x7d", lit "4e0f4db3558b4eab94092543988947d9"]).2.1)) =
      some (lit "HPJWVBUIVADK4Q9UJB0MTG==", lit "sc/oyzmvcfItnyqQqJy8l+FAN2Y=") := by
  rw [fixture_consume_path, Option.map_some', signature_eq, if_pos (by decide)]
  have hn : signatureNonce w
      [lit "\x7b\"developerPayload\":\"test\"\x7d", lit "4e0f4db3558b4eab94092543988947d9"] =
      lit "4e0f4db3558b4eab94092543988947d9" := by
    unfold signatureNonce
    rw [if_pos (by decide)]
    rfl
  have hd : md5 (New id key (lit "MTIzNDU2Nzg5MA==") (lit "com.iap.test") url)
      ([lit "\x7b\"developerPayload\":\"test\"\x7d", lit "4e0f4db3558b4eab94092543988947d9"].getD 0 []) =
      lit "HPJWVBUIVADK4Q9UJB0MTG==" := fixture_body_digest
  rw [hn, hd]
  exact congrArg (fun m => some (lit "HPJWVBUIVADK4Q9UJB0MTG==", m)) fixture_post_mac

/-! ## Lemmas on the content digest -/

/-- The MD5 digest has sixteen bytes. -/
theorem md5Digest_length (m : List Nat) : (md5Digest m).length = 16 := by
  simp [md5Digest, leBytes]

/-- Base64 of sixteen bytes: twenty-four characters, the last two are `=`. -/
theorem base64Encode_sixteen (l : List Nat) (h : l.length = 16) :
    (base64Encode l).length = 24 ∧ (base64Encode l).drop 22 = [61, 61] := by
  match l, h with
  | [_, _, _, _, _, _, _, _, _, _, _, _, _, _, _, _], _ => simp [base64Encode]

/-- No byte of an upper-cased string is a lower-case ASCII letter. -/
theorem stringsToUpper_no_lower (s : GoString) :
    ∀ c ∈ stringsToUpper s, ¬ (97 ≤ c.toNat ∧ c.toNat ≤ 122) := by
  intro c hc
  simp only [stringsToUpper, List.mem_map] at hc
  obtain ⟨d, -, hd⟩ := hc
  by_cases hlow : 97 ≤ d.toNat ∧ d.toNat ≤ 122
  · rw [if_pos hlow] at hd
    subst hd
    have hv : (UInt8.ofNat (d.toNat - 32)).toNat = (d.toNat - 32) % 256 := rfl
    rw [hv]
    omega
  · rw [if_neg hlow] at hd
    subst hd
    exact hlow

/-! ## The claims, continued -/

/-- Claim C11: the content digest `md5(b)` is the upper-cased standard base64
text of the sixteen-byte MD5 digest of `b`; it always has twenty-four
characters, of which the last two are `==`, it contains no lower-case letter,
and it depends on the input text only. -/
theorem md5_fixed_length_upper (mi : MiGlobalIAP) (b : GoString) :
    md5 mi b = stringsToUpper (base64StdEncodeToString (md5Sum b)) ∧
      (md5Sum b).length = 16 ∧
      (md5 mi b).length = 24 ∧
      (md5 mi b).drop 22 = lit "==" ∧
      (∀ c ∈ md5 mi b, ¬ (97 ≤ c.toNat ∧ c.toNat ≤ 122)) ∧
      ∀ mi2 : MiGlobalIAP, md5 mi2 b = md5 mi b := by
  have h16 : ((md5Sum b).map UInt8.toNat).length = 16 := by
    simp [md5Sum, md5Digest_length]
  obtain ⟨hlen, hlast⟩ := base64Encode_sixteen _ h16
  refine ⟨rfl, by simpa using h16, ?_, ?_, stringsToUpper_no_lower _, fun _ => rfl⟩
  · simp [md5, stringsToUpper, base64StdEncodeToString, hlen]
  · have hpad : lit "==" = [61, 61] := by decide
    simp only [md5, stringsToUpper, base64StdEncodeToString, ← List.map_drop, hlast, hpad]
    decide

/-- Claim C12 at a call with a body and a second payload argument:
`Acknowledge` and `Consume` sign the digest of the body and send it as
`Content-MD5`, yet the request handed to `client.Do` has no body. -/
theorem body_signed_but_not_sent :
    (Acknowledge (sampleWorld 200 []) sampleClient (lit "game-10")
        (lit "PID220706155637286289388715727088")
        [lit "\x7b\"developerPayload\":\"test\"\x7d", lit "4e0f4db3558b4eab94092543988947d9"]).map
        (fun o => o.sent.map fun r => (r.body, r.header.get (lit "Content-MD5"))) =
      some [(none, some (lit "HPJWVBUIVADK4Q9UJB0MTG=="))] ∧
    (Consume (sampleWorld 200 []) sampleClient (lit "game-10")
        (lit "PID220706155637286289388715727088")
        [lit "\x7b\"developerPayload\":\"test\"\x7d", lit "4e0f4db3558b4eab94092543988947d9"]).map
        (fun o => o.sent.map fun r => (r.body, r.header.get (lit "Content-MD5"))) =
      some [(none, some (lit "HPJWVBUIVADK4Q9UJB0MTG=="))] := by
  decide!

/-- Claim C13: for a token of at least three bytes, when `http.NewRequest`
fails, or `client.Do` fails on the request the operation builds, or the
reading of the answer's body fails, the operation returns exactly that error
with a nil result or `false`, whatever the status and whatever the decoders
would give; in the first case nothing is handed to `client.Do`, in the other
two exactly that one request. -/
theorem transport_error_is_returned (w : World) (mi : MiGlobalIAP) (pid token : GoString)
    (payload : List GoString) (hlen : 3 ≤ token.length) :
    (∃ path, purchaseUrl mi pid token = some path ∧
        (∀ e, w.httpNewRequest httpMethodGet (mi.BaseUrl ++ path) = some e →
          PurchaseStatus w mi pid token = some { value := none, err := some e, sent := [] }) ∧
        (∀ e, w.httpNewRequest httpMethodGet (mi.BaseUrl ++ path) = none →
          w.clientDo
              { method := httpMethodGet, url := mi.BaseUrl ++ path,
                header := buildHeader w mi (signature w mi httpMethodGet path []).1
                  (signature w mi httpMethodGet path []).2.1 [],
                body := none } =
            .error e →
          PurchaseStatus w mi pid token =
            some { value := none, err := some e,
                   sent := [{ method := httpMethodGet, url := mi.BaseUrl ++ path,
                              header := buildHeader w mi (signature w mi httpMethodGet path []).1
                                (signature w mi httpMethodGet path []).2.1 [],
                              body := none }] }) ∧
        (∀ c e, w.httpNewRequest httpMethodGet (mi.BaseUrl ++ path) = none →
          w.clientDo
              { method := httpMethodGet, url := mi.BaseUrl ++ path,
                header := buildHeader w mi (signature w mi httpMethodGet path []).1
                  (signature w mi httpMethodGet path []).2.1 [],
                body := none } =
            .ok (c, .error e) →
          PurchaseStatus w mi pid token =
            some { value := none, err := some e,
                   sent := [{ method := httpMethodGet, url := mi.BaseUrl ++ path,
                              header := buildHeader w mi (signature w mi httpMethodGet path []).1
                                (signature w mi httpMethodGet path []).2.1 [],
                              body := none }] })) ∧
      (∃ path, acknowledgeUrl mi pid token = some path ∧
        (∀ e, w.httpNewRequest httpMethodPost (mi.BaseUrl ++ path) = some e →
          Acknowledge w mi pid token payload = some { value := false, err := some e, sent := [] }) ∧
        (∀ e, w.httpNewRequest httpMethodPost (mi.BaseUrl ++ path) = none →
          w.clientDo
              { method := httpMethodPost, url := mi.BaseUrl ++ path,
                header := buildHeader w mi (signature w mi httpMethodPost path payload).1
                  (signature w mi httpMethodPost path payload).2.1
                  [(signature w mi httpMethodPost path payload).2.2],
                body := if payload.length = 1 then some (payload.getD 0 []) else none } =
            .error e →
          Acknowledge w mi pid token payload =
            some { value := false, err := some e,
                   sent := [{ method := httpMethodPost, url := mi.BaseUrl ++ path,
                              header := buildHeader w mi (signature w mi httpMethodPost path payload).1
                                (signature w mi httpMethodPost path payload).2.1
                                [(signature w mi httpMethodPost path payload).2.2],
                              body := if payload.length = 1 then some (payload.getD 0 []) else none }] }) ∧
        (∀ c e, w.httpNewRequest httpMethodPost (mi.BaseUrl ++ path) = none →
          w.clientDo
              { method := httpMethodPost, url := mi.BaseUrl ++ path,
                header := buildHeader w mi (signature w mi httpMethodPost path payload).1
                  (signature w mi httpMethodPost path payload).2.1
                  [(signature w mi httpMethodPost path payload).2.2],
                body := if payload.length = 1 then some (payload.getD 0 []) else none } =
            .ok (c, .error e) →
          Acknowledge w mi pid token payload =
            some { value := false, err := some e,
                   sent := [{ method := httpMethodPost, url := mi.BaseUrl ++ path,
                              header := buildHeader w mi (signature w mi httpMethodPost path payload).1
                                (signature w mi httpMethodPost path payload).2.1
                                [(signature w mi httpMethodPost path payload).2.2],
                              body := if payload.length = 1 then some (payload.getD 0 []) else none }] })) ∧
      (∃ path, consumeUrl mi pid token = some path ∧
        (∀ e, w.httpNewRequest httpMethodPost (mi.BaseUrl ++ path) = some e →
          Consume w mi pid token payload = some { value := false, err := some e, sent := [] }) ∧
        (∀ e, w.httpNewRequest httpMethodPost (mi.BaseUrl ++ path) = none →
          w.clientDo
              { method := httpMethodPost, url := mi.BaseUrl ++ path,
                header := buildHeader w mi (signature w mi httpMethodPost path payload).1
                  (signature w mi httpMethodPost path payload).2.1
                  [(signature w mi httpMethodPost path payload).2.2],
                body := if payload.length = 1 then some (payload.getD 0 []) else none } =
            .error e →
          Consume w mi pid token payload =
            some { value := false, err := some e,
                   sent := [{ method := httpMethodPost, url := mi.BaseUrl ++ path,
                              header := buildHeader w mi (signature w mi httpMethodPost path payload).1
                                (signature w mi httpMethodPost path payload).2.1
                                [(signature w mi httpMethodPost path payload).2.2],
                              body := if payload.length = 1 then some (payload.getD 0 []) else none }] }) ∧
        (∀ c e, w.httpNewRequest httpMethodPost (mi.BaseUrl ++ path) = none →
          w.clientDo
              { method := httpMethodPost, url := mi.BaseUrl ++ path,
                header := buildHeader w mi (signature w mi httpMethodPost path payload).1
                  (signature w mi httpMethodPost path payload).2.1
                  [(signature w mi httpMethodPost path payload).2.2],
                body := if payload.length = 1 then some (payload.getD 0 []) else none } =
            .ok (c, .error e) →
          Consume w mi pid token payload =
            some { value := false, err := some e,
                   sent := [{ method := httpMethodPost, url := mi.BaseUrl ++ path,
                              header := buildHeader w mi (signature w mi httpMethodPost path payload).1
                                (signature w mi httpMethodPost path payload).2.1
                                [(signature w mi httpMethodPost path payload).2.2],
                              body := if payload.length = 1 then some (payload.getD 0 []) else none }] })) := by
  refine ⟨?_, ?_, ?_⟩
  · obtain ⟨path, hp, hv⟩ := PurchaseStatus_valid w mi pid token hlen
    refine ⟨path, hp, fun e hnew => ?_, fun e hnew hdo => ?_, fun c e hnew hdo => ?_⟩
    · rw [hv, hnew]
      rfl
    · rw [hv, hnew, interpret_do_error w _ _ _ e hdo]
    · rw [hv, hnew, interpret_read_error w _ _ _ c e hdo]
  · obtain ⟨path, hp, hv⟩ := Acknowledge_valid w mi pid token payload hlen
    refine ⟨path, hp, fun e hnew => ?_, fun e hnew hdo => ?_, fun c e hnew hdo => ?_⟩
    · rw [hv, hnew]
      rfl
    · rw [hv, hnew, interpret_do_error w _ _ _ e hdo]
    · rw [hv, hnew, interpret_read_error w _ _ _ c e hdo]
  · obtain ⟨path, hp, hv⟩ := Consume_valid w mi pid token payload hlen
    refine ⟨path, hp, fun e hnew => ?_, fun e hnew hdo => ?_, fun c e hnew hdo => ?_⟩
    · rw [hv, hnew]
      rfl
    · rw [hv, hnew, interpret_do_error w _ _ _ e hdo]
    · rw [hv, hnew, interpret_read_error w _ _ _ c e hdo]

/-- Claim C13 at the three operations when `client.Do` fails. -/
theorem transport_error_is_returned_witness :
    3 ≤ (lit "PID220706155637286289388715727088").length ∧
      (PurchaseStatus (failingWorld (.external (lit "dial tcp: connection refused")))
          sampleClient (lit "game-10") (lit "PID220706155637286289388715727088")).map
          (fun o => (o.value, o.err, o.sent.length)) =
        some (none, some (.external (lit "dial tcp: connection refused")), 1) ∧
      (Acknowledge (failingWorld (.external (lit "dial tcp: connection refused")))
          sampleClient (lit "game-10") (lit "PID220706155637286289388715727088")
          [lit "\x7b\"developerPayload\":\"test\"\x7d"]).map
          (fun o => (o.value, o.err, o.sent.length)) =
        some (false, some (.external (lit "dial tcp: connection refused")), 1) ∧
      (Consume (failingWorld (.external (lit "dial tcp: connection refused")))
          sampleClient (lit "game-10") (lit "PID220706155637286289388715727088")
          [lit "\x7b\"developerPayload\":\"test\"\x7d"]).map
          (fun o => (o.value, o.err, o.sent.length)) =
        some (false, some (.external (lit "dial tcp: connection refused")), 1) := by
  obtain ⟨⟨_, -, -, h1, -⟩, ⟨_, -, -, h2, -⟩, ⟨_, -, -, h3, -⟩⟩ := transport_error_is_returned
    (failingWorld (.external (lit "dial tcp: connection refused"))) sampleClient
    (lit "game-10") (lit "PID220706155637286289388715727088") [lit "\x7b\"developerPayload\":\"test\"\x7d"] (by decide)
  refine ⟨by decide, ?_, ?_, ?_⟩
  · rw [h1 _ rfl rfl]
    rfl
  · rw [h2 _ rfl rfl]
    rfl
  · rw [h3 _ rfl rfl]
    rfl

/-- Claim C14: `New` stores the identifier, key, secret and package name
unchanged; without a URL argument the base URL is
`https://rest-iap.miglobalpay.com`, with one URL argument it is that
argument; in general the argument is taken exactly when one is passed. -/
theorem New_stores_configuration (id key secret pkg u : GoString) (url : List GoString) :
    (New id key secret pkg url).AppID = id ∧
      (New id key secret pkg url).AppKey = key ∧
      (New id key secret pkg url).AppSecret = secret ∧
      (New id key secret pkg url).PackageName = pkg ∧
      (New id key secret pkg []).BaseUrl = lit "https://rest-iap.miglobalpay.com" ∧
      (New id key secret pkg [u]).BaseUrl = u ∧
      (New id key secret pkg url).BaseUrl =
        (if url.length = 1 then url.getD 0 [] else lit "https://rest-iap.miglobalpay.com") :=
  ⟨rfl, rfl, rfl, rfl, rfl, rfl, rfl⟩

/-- Claim C15, as stated, fails: for the token of the package's tests the
region put into the path is `ID`, the bytes at positions 1 and 2, while the
third and fourth bytes are `D2`. -/
theorem region_is_not_third_and_fourth :
    goSlice (lit "PID220706155637286289388715727088") 1 3 = some (lit "ID") ∧
      ((lit "PID220706155637286289388715727088").drop 2).take 2 = lit "D2" ∧
      purchaseUrl sampleClient (lit "game-10") (lit "PID220706155637286289388715727088") =
        some (lit "/ID/developer/v1/applications/com.iap.test/purchases/products/game-10/tokens/PID220706155637286289388715727088") ∧
      purchaseUrl sampleClient (lit "game-10") (lit "PID220706155637286289388715727088") ≠
        some (lit "/D2/developer/v1/applications/com.iap.test/purchases/products/game-10/tokens/PID220706155637286289388715727088") := by
  decide!

/-- Claim C15, amended: for a token of at least three bytes the region code
used when building a request path, whatever the operation, is the token's
second and third bytes (positions 1 and 2 counted from 0). -/
theorem region_is_second_and_third (mi : MiGlobalIAP) (pid token : GoString)
    (opt : List GoString) (h : 3 ≤ token.length) :
    goSlice token 1 3 = some [token[1], token[2]] ∧
      ∃ rest, buildRequestUrl mi pid token opt =
        some (lit "/" ++ [token[1], token[2]] ++ lit "/developer/v1/applications/" ++ rest) := by
  refine ⟨goSlice_region token h, ?_⟩
  unfold buildRequestUrl
  rw [goSlice_region token h]
  simp only []
  by_cases hopt : 0 < opt.length ∧ (opt.getD 0 [] = ACKNOWLEDGE ∨ opt.getD 0 [] = CONSUME)
  · rw [if_pos hopt, List.append_assoc]
    have hs : ∀ c ∈ lit ":" ++ opt.getD 0 [], c ≠ 37 := by
      rcases hopt.2 with h1 | h1 <;> rw [h1] <;> decide
    rw [request_format _ _ _ _ _ hs]
    exact ⟨mi.PackageName ++ lit "/purchases/products/" ++ pid ++ lit "/tokens/" ++ token ++
      (lit ":" ++ opt.getD 0 []), by simp only [List.append_assoc]⟩
  · rw [if_neg hopt]
    have hf := request_format [] [token[1], token[2]] mi.PackageName pid token (by simp)
    simp only [List.append_nil] at hf
    rw [hf]
    exact ⟨mi.PackageName ++ lit "/purchases/products/" ++ pid ++ lit "/tokens/" ++ token,
      by simp only [List.append_assoc]⟩

/-- Claim C15, amended, at the token of the package's tests. -/
theorem region_is_second_and_third_witness :
    3 ≤ (lit "PID220706155637286289388715727088").length ∧
      goSlice (lit "PID220706155637286289388715727088") 1 3 = some (lit "ID") :=
  ⟨by decide, (region_is_second_and_third sampleClient (lit "game-10")
    (lit "PID220706155637286289388715727088") [] (by decide)).1.trans (by decide!)⟩

/-! ## Lemmas on the nonce and on the request sent -/

/-- The nonce returned by `signature`. -/
theorem signature_fst (w : World) (mi : MiGlobalIAP) (method url : GoString)
    (payload : List GoString) :
    (signature w mi method url payload).1 = signatureNonce w payload := by
  rw [signature_eq]
  split <;> rfl

/-- The signature returned by `signature` covers the method, the returned
digest (empty without a body), the returned nonce and the path. -/
theorem signature_canonical (w : World) (mi : MiGlobalIAP) (method url : GoString)
    (payload : List GoString) :
    (signature w mi method url payload).2.1 =
      base64StdEncodeToString (hmacSha1 mi.AppSecret
        (method ++ lit "\n" ++ (signature w mi method url payload).2.2 ++
          lit "\napplication/json\n\nx-ias-sign-nonce:" ++
          (signature w mi method url payload).1 ++ lit "\n" ++ url)) := by
  have hsplit : lit "\n\napplication/json\n\nx-ias-sign-nonce:" =
      lit "\n" ++ lit "\napplication/json\n\nx-ias-sign-nonce:" := by decide
  rw [signature_eq]
  split
  · rfl
  · simp only [sha1, hsplit, List.append_assoc, List.nil_append]

/-- The nonce entry of the map returned by `buildHeader`. -/
theorem buildHeader_get_nonce (w : World) (mi : MiGlobalIAP) (ias sha1 : GoString)
    (md5 : List GoString) :
    (buildHeader w mi ias sha1 md5).get (lit "x-ias-sign-nonce") = some ias := by
  rw [buildHeader_eq]
  split <;> rfl

/-- The authorization entry of the map returned by `buildHeader`. -/
theorem buildHeader_get_authorization (w : World) (mi : MiGlobalIAP) (ias sha1 : GoString)
    (md5 : List GoString) :
    (buildHeader w mi ias sha1 md5).get (lit "Authorization") = some (lit "ias " ++ sha1) := by
  rw [buildHeader_eq]
  split <;> rfl

/-- A token shorter than three bytes fails `verifyToken`. -/
theorem verifyToken_short (mi : MiGlobalIAP) (token : GoString) (h : token.length < 3) :
    verifyToken mi token = some (.errorsNew (lit "token error")) := by
  simp [verifyToken, h]

/-! ## The claims on the nonce, the request sent and the region slice -/

/-- Claim C16: when `signature` is called with a body argument (empty or not)
and a non-empty override nonce, the nonce it returns and the nonce in the
signed canonical string are that override; without an override, or with an
empty one, the returned nonce is the freshly drawn identifier; in general the
override is taken exactly when two payload arguments are passed and the
second is not empty. -/
theorem signature_nonce_override (w : World) (mi : MiGlobalIAP) (method url body nonce : GoString)
    (payload : List GoString) (hn : nonce ≠ []) :
    (signature w mi method url [body, nonce]).1 = nonce ∧
      (signature w mi method url [body, nonce]).2.1 =
        base64StdEncodeToString (hmacSha1 mi.AppSecret
          (method ++ lit "\n" ++ (signature w mi method url [body, nonce]).2.2 ++
            lit "\napplication/json\n\nx-ias-sign-nonce:" ++ nonce ++ lit "\n" ++ url)) ∧
      (signature w mi method url []).1 = w.uuidNew ∧
      (signature w mi method url [body]).1 = w.uuidNew ∧
      (signature w mi method url [body, []]).1 = w.uuidNew ∧
      (signature w mi method url payload).1 =
        (if payload.length = 2 ∧ payload.getD 1 [] ≠ [] then payload.getD 1 [] else w.uuidNew) := by
  have h1 : (signature w mi method url [body, nonce]).1 = nonce := by
    rw [signature_fst]
    simp [signatureNonce, hn]
  refine ⟨h1, ?_, ?_, ?_, ?_, ?_⟩
  · have hc := signature_canonical w mi method url [body, nonce]
    rw [h1] at hc
    exact hc
  · rw [signature_fst]
    simp [signatureNonce]
  · rw [signature_fst]
    simp [signatureNonce]
  · rw [signature_fst]
    simp [signatureNonce]
  · rw [signature_fst]
    rfl

/-- Claim C16 at the override nonce of the package's status-query test. -/
theorem signature_nonce_override_witness :
    lit "8420674727e94e7cabff27ac66db5c5d" ≠ [] ∧
      (signature (sampleWorld 200 []) sampleClient httpMethodGet (lit "/p")
        [lit "", lit "8420674727e94e7cabff27ac66db5c5d"]).1 =
        lit "8420674727e94e7cabff27ac66db5c5d" :=
  ⟨by decide, (signature_nonce_override (sampleWorld 200 []) sampleClient httpMethodGet
    (lit "/p") (lit "") (lit "8420674727e94e7cabff27ac66db5c5d") [] (by decide)).1⟩

/-- Claim C17, as stated, fails: `Consume` called with a body and a second
payload argument sends that argument as `x-ias-sign-nonce`, not the freshly
drawn identifier, and the signature sent is the one computed with it. -/
theorem caller_nonce_is_sent :
    (Consume (sampleWorld 200 []) sampleClient (lit "game-10")
        (lit "PID220706155637286289388715727088")
        [lit "\x7b\"developerPayload\":\"test\"\x7d", lit "4e0f4db3558b4eab94092543988947d9"]).map
        (fun o => o.sent.map fun r =>
          (r.header.get (lit "x-ias-sign-nonce"), r.header.get (lit "Authorization"))) =
      some [(some (lit "4e0f4db3558b4eab94092543988947d9"),
        some (lit "ias sc/oyzmvcfItnyqQqJy8l+FAN2Y="))] ∧
    (sampleWorld 200 []).uuidNew ≠ lit "4e0f4db3558b4eab94092543988947d9" := by
  decide!

/-- Claim C17, amended: for a token of at least three bytes, `PurchaseStatus`
always sends and signs the freshly drawn identifier; `Acknowledge` and
`Consume` send and sign the freshly drawn identifier unless exactly two
payload arguments are passed and the second is not empty, and then the nonce
sent and signed is that second argument; each operation hands one request
to `client.Do` whenever `http.NewRequest` succeeds. -/
theorem nonce_sent_by_operations (w : World) (mi : MiGlobalIAP) (pid token : GoString)
    (payload : List GoString) (hlen : 3 ≤ token.length) :
    (∃ path o, purchaseUrl mi pid token = some path ∧
        PurchaseStatus w mi pid token = some o ∧
        (w.httpNewRequest httpMethodGet (mi.BaseUrl ++ path) = none → o.sent.length = 1) ∧
        ∀ req ∈ o.sent,
          req.header.get (lit "x-ias-sign-nonce") = some w.uuidNew ∧
            req.header.get (lit "Authorization") =
              some (lit "ias " ++ base64StdEncodeToString (hmacSha1 mi.AppSecret
                (httpMethodGet ++ lit "\n\napplication/json\n\nx-ias-sign-nonce:" ++
                  w.uuidNew ++ lit "\n" ++ path)))) ∧
      (∃ path o, acknowledgeUrl mi pid token = some path ∧
        Acknowledge w mi pid token payload = some o ∧
        (w.httpNewRequest httpMethodPost (mi.BaseUrl ++ path) = none → o.sent.length = 1) ∧
        ∀ req ∈ o.sent,
          req.header.get (lit "x-ias-sign-nonce") =
              some (if payload.length = 2 ∧ payload.getD 1 [] ≠ [] then payload.getD 1 []
                else w.uuidNew) ∧
            req.header.get (lit "Authorization") =
              some (lit "ias " ++ base64StdEncodeToString (hmacSha1 mi.AppSecret
                (httpMethodPost ++ lit "\n" ++
                  (signature w mi httpMethodPost path payload).2.2 ++
                  lit "\napplication/json\n\nx-ias-sign-nonce:" ++
                  (if payload.length = 2 ∧ payload.getD 1 [] ≠ [] then payload.getD 1 []
                    else w.uuidNew) ++
                  lit "\n" ++ path)))) ∧
      (∃ path o, consumeUrl mi pid token = some path ∧
        Consume w mi pid token payload = some o ∧
        (w.httpNewRequest httpMethodPost (mi.BaseUrl ++ path) = none → o.sent.length = 1) ∧
        ∀ req ∈ o.sent,
          req.header.get (lit "x-ias-sign-nonce") =
              some (if payload.length = 2 ∧ payload.getD 1 [] ≠ [] then payload.getD 1 []
                else w.uuidNew) ∧
            req.header.get (lit "Authorization") =
              some (lit "ias " ++ base64StdEncodeToString (hmacSha1 mi.AppSecret
                (httpMethodPost ++ lit "\n" ++
                  (signature w mi httpMethodPost path payload).2.2 ++
                  lit "\napplication/json\n\nx-ias-sign-nonce:" ++
                  (if payload.length = 2 ∧ payload.getD 1 [] ≠ [] then payload.getD 1 []
                    else w.uuidNew) ++
                  lit "\n" ++ path)))) := by
  refine ⟨?_, ?_, ?_⟩
  · obtain ⟨path, hp, hv⟩ := PurchaseStatus_valid w mi pid token hlen
    refine ⟨path, _, hp, hv, fun hnew => ?_, ?_⟩
    · rw [interpret_sent, hnew]
      rfl
    intro req hreq
    have hr := interpret_sent_mem _ _ _ _ _ req hreq
    subst hr
    simp only []
    rw [buildHeader_get_nonce, buildHeader_get_authorization, signature_eq, if_neg (by simp)]
    exact ⟨rfl, rfl⟩
  · obtain ⟨path, hp, hv⟩ := Acknowledge_valid w mi pid token payload hlen
    refine ⟨path, _, hp, hv, fun hnew => ?_, ?_⟩
    · rw [interpret_sent, hnew]
      rfl
    intro req hreq
    have hr := interpret_sent_mem _ _ _ _ _ req hreq
    subst hr
    simp only []
    rw [buildHeader_get_nonce, buildHeader_get_authorization, signature_canonical, signature_fst]
    exact ⟨rfl, rfl⟩
  · obtain ⟨path, hp, hv⟩ := Consume_valid w mi pid token payload hlen
    refine ⟨path, _, hp, hv, fun hnew => ?_, ?_⟩
    · rw [interpret_sent, hnew]
      rfl
    intro req hreq
    have hr := interpret_sent_mem _ _ _ _ _ req hreq
    subst hr
    simp only []
    rw [buildHeader_get_nonce, buildHeader_get_authorization, signature_canonical, signature_fst]
    exact ⟨rfl, rfl⟩

/-- Claim C17, amended, at a status query with the token of the package's
tests. -/
theorem nonce_sent_by_operations_witness :
    3 ≤ (lit "PID220706155637286289388715727088").length ∧
      ∃ o, PurchaseStatus (sampleWorld 200 []) sampleClient (lit "game-10")
          (lit "PID220706155637286289388715727088") = some o ∧
        o.sent.length = 1 ∧
        ∀ req ∈ o.sent,
          req.header.get (lit "x-ias-sign-nonce") = some (sampleWorld 200 []).uuidNew := by
  refine ⟨by decide, ?_⟩
  obtain ⟨_, o, -, ho, hone, h⟩ := (nonce_sent_by_operations (sampleWorld 200 []) sampleClient
    (lit "game-10") (lit "PID220706155637286289388715727088") [] (by decide)).1
  exact ⟨o, ho, hone rfl, fun req hreq => (h req hreq).1⟩

/-- Claim C18, as stated, fails: for the token `PID#1` the path that
`PurchaseStatus` signs ends in `/tokens/PID#1`, and the URL it passes to
`http.NewRequest` is `BaseUrl` followed by that path, but the URL that is
requested is the text before the `#`, which ends in `/tokens/PID`. -/
theorem fragment_is_not_requested :
    purchaseUrl sampleClient (lit "game-10") (lit "PID#1") =
        some (lit "/ID/developer/v1/applications/com.iap.test/purchases/products/game-10/tokens/PID#1") ∧
      (PurchaseStatus (sampleWorld 200 []) sampleClient (lit "game-10") (lit "PID#1")).map
          (fun o => o.sent.map fun r =>
            (r.url, urlBeforeFragment r.url, r.header.get (lit "Authorization"))) =
        some [(lit "https://rest-iap.miglobalpay.com/ID/developer/v1/applications/com.iap.test/purchases/products/game-10/tokens/PID#1",
          lit "https://rest-iap.miglobalpay.com/ID/developer/v1/applications/com.iap.test/purchases/products/game-10/tokens/PID",
          some (lit "ias " ++ base64StdEncodeToString (hmacSha1 (lit "MTIzNDU2Nzg5MA==")
            (lit "GET\n\napplication/json\n\nx-ias-sign-nonce:9b2f6c1e-5d1a-4c58-8f0e-3a7d2b4c6e10\n/ID/developer/v1/applications/com.iap.test/purchases/products/game-10/tokens/PID#1"))))] ∧
      lit "https://rest-iap.miglobalpay.com/ID/developer/v1/applications/com.iap.test/purchases/products/game-10/tokens/PID" ≠
        sampleClient.BaseUrl ++ lit "/ID/developer/v1/applications/com.iap.test/purchases/products/game-10/tokens/PID#1" := by
  decide!

/-- Claim C18, amended: for a token of at least three bytes, what an
operation passes to `net/http` is what it signed: `PurchaseStatus` passes
`GET`, `Acknowledge` and `Consume` pass `POST`, the URL passed to
`http.NewRequest` is `BaseUrl` followed by the path in the canonical string,
the header entries are those `buildHeader` makes from the nonce and the
signature (and, for the two `POST` operations, the digest) returned by
`signature`, and that signature covers this method and this path; exactly
this one request is handed to `client.Do` when `http.NewRequest` succeeds
and none otherwise.  The URL that is requested is the passed URL up to its
first `#`: the whole of it when it contains no `#`, and otherwise without
the `#` and what follows it. -/
theorem signed_request_is_sent (w : World) (mi : MiGlobalIAP) (pid token : GoString)
    (payload : List GoString) (hlen : 3 ≤ token.length) :
    httpMethodGet = lit "GET" ∧ httpMethodPost = lit "POST" ∧
      (∀ a b : GoString, (35 : UInt8) ∉ a → urlBeforeFragment (a ++ 35 :: b) = a) ∧
      (∃ path o, purchaseUrl mi pid token = some path ∧
        PurchaseStatus w mi pid token = some o ∧
        o.sent =
          (if w.httpNewRequest httpMethodGet (mi.BaseUrl ++ path) = none then
            [{ method := httpMethodGet, url := mi.BaseUrl ++ path,
               header := buildHeader w mi (signature w mi httpMethodGet path []).1
                 (signature w mi httpMethodGet path []).2.1 [],
               body := none }]
          else []) ∧
        (signature w mi httpMethodGet path []).2.1 =
          base64StdEncodeToString (hmacSha1 mi.AppSecret
            (httpMethodGet ++ lit "\n" ++ (signature w mi httpMethodGet path []).2.2 ++
              lit "\napplication/json\n\nx-ias-sign-nonce:" ++
              (signature w mi httpMethodGet path []).1 ++ lit "\n" ++ path)) ∧
        ((35 : UInt8) ∉ mi.BaseUrl ++ path →
          urlBeforeFragment (mi.BaseUrl ++ path) = mi.BaseUrl ++ path)) ∧
      (∃ path o, acknowledgeUrl mi pid token = some path ∧
        Acknowledge w mi pid token payload = some o ∧
        o.sent =
          (if w.httpNewRequest httpMethodPost (mi.BaseUrl ++ path) = none then
            [{ method := httpMethodPost, url := mi.BaseUrl ++ path,
               header := buildHeader w mi (signature w mi httpMethodPost path payload).1
                 (signature w mi httpMethodPost path payload).2.1
                 [(signature w mi httpMethodPost path payload).2.2],
               body := if payload.length = 1 then some (payload.getD 0 []) else none }]
          else []) ∧
        (signature w mi httpMethodPost path payload).2.1 =
          base64StdEncodeToString (hmacSha1 mi.AppSecret
            (httpMethodPost ++ lit "\n" ++ (signature w mi httpMethodPost path payload).2.2 ++
              lit "\napplication/json\n\nx-ias-sign-nonce:" ++
              (signature w mi httpMethodPost path payload).1 ++ lit "\n" ++ path)) ∧
        ((35 : UInt8) ∉ mi.BaseUrl ++ path →
          urlBeforeFragment (mi.BaseUrl ++ path) = mi.BaseUrl ++ path)) ∧
      (∃ path o, consumeUrl mi pid token = some path ∧
        Consume w mi pid token payload = some o ∧
        o.sent =
          (if w.httpNewRequest httpMethodPost (mi.BaseUrl ++ path) = none then
            [{ method := httpMethodPost, url := mi.BaseUrl ++ path,
               header := buildHeader w mi (signature w mi httpMethodPost path payload).1
                 (signature w mi httpMethodPost path payload).2.1
                 [(signature w mi httpMethodPost path payload).2.2],
               body := if payload.length = 1 then some (payload.getD 0 []) else none }]
          else []) ∧
        (signature w mi httpMethodPost path payload).2.1 =
          base64StdEncodeToString (hmacSha1 mi.AppSecret
            (httpMethodPost ++ lit "\n" ++ (signature w mi httpMethodPost path payload).2.2 ++
              lit "\napplication/json\n\nx-ias-sign-nonce:" ++
              (signature w mi httpMethodPost path payload).1 ++ lit "\n" ++ path)) ∧
        ((35 : UInt8) ∉ mi.BaseUrl ++ path →
          urlBeforeFragment (mi.BaseUrl ++ path) = mi.BaseUrl ++ path)) := by
  refine ⟨rfl, rfl, urlBeforeFragment_cut, ?_, ?_, ?_⟩
  · obtain ⟨path, hp, hv⟩ := PurchaseStatus_valid w mi pid token hlen
    exact ⟨path, _, hp, hv, interpret_sent _ _ _ _ _, signature_canonical _ _ _ _ _,
      urlBeforeFragment_self _⟩
  · obtain ⟨path, hp, hv⟩ := Acknowledge_valid w mi pid token payload hlen
    exact ⟨path, _, hp, hv, interpret_sent _ _ _ _ _, signature_canonical _ _ _ _ _,
      urlBeforeFragment_self _⟩
  · obtain ⟨path, hp, hv⟩ := Consume_valid w mi pid token payload hlen
    exact ⟨path, _, hp, hv, interpret_sent _ _ _ _ _, signature_canonical _ _ _ _ _,
      urlBeforeFragment_self _⟩

/-- Claim C18, amended, at a status query with the token of the package's
tests: one request is handed over, with method `GET` and the URL made of the
base URL and the signed path, which has no fragment. -/
theorem signed_request_is_sent_witness :
    3 ≤ (lit "PID220706155637286289388715727088").length ∧
      ∃ o, PurchaseStatus (sampleWorld 200 []) sampleClient (lit "game-10")
          (lit "PID220706155637286289388715727088") = some o ∧
        o.sent.map (fun r => (r.method, r.url, urlBeforeFragment r.url)) =
          [(lit "GET", lit "https://rest-iap.miglobalpay.com/ID/developer/v1/applications/com.iap.test/purchases/products/game-10/tokens/PID220706155637286289388715727088",
            lit "https://rest-iap.miglobalpay.com/ID/developer/v1/applications/com.iap.test/purchases/products/game-10/tokens/PID220706155637286289388715727088")] := by
  refine ⟨by decide, ?_⟩
  obtain ⟨-, -, -, ⟨path, o, hp, ho, hsent, -, -⟩, -, -⟩ := signed_request_is_sent
    (sampleWorld 200 []) sampleClient (lit "game-10") (lit "PID220706155637286289388715727088") [] (by decide)
  have hfix : purchaseUrl sampleClient (lit "game-10") (lit "PID220706155637286289388715727088") =
      some (lit "/ID/developer/v1/applications/com.iap.test/purchases/products/game-10/tokens/PID220706155637286289388715727088") :=
    fixture_purchase_path _ _ _
  have hpath : path = lit "/ID/developer/v1/applications/com.iap.test/purchases/products/game-10/tokens/PID220706155637286289388715727088" :=
    Option.some.inj (hp.symm.trans hfix)
  subst hpath
  have hnew : (sampleWorld 200 []).httpNewRequest httpMethodGet
      (sampleClient.BaseUrl ++
        lit "/ID/developer/v1/applications/com.iap.test/purchases/products/game-10/tokens/PID220706155637286289388715727088") = none := rfl
  refine ⟨o, ho, ?_⟩
  rw [hsent, if_pos hnew]
  decide!

/-- Claim C19: the slice `token[1:3]` is never out of range when reached from
the public operations: either the token has fewer than three bytes, then
`verifyToken` rejects it and each operation returns the token error without
building a path, or it has at least three, then the slice and
`buildRequestUrl` succeed; in both cases no operation panics. -/
theorem region_slice_in_range (w : World) (mi : MiGlobalIAP) (pid token : GoString)
    (payload : List GoString) :
    (token.length < 3 ∧
        verifyToken mi token = some (.errorsNew (lit "token error")) ∧
        PurchaseStatus w mi pid token =
          some { value := none, err := some (.errorsNew (lit "token error")), sent := [] } ∧
        Acknowledge w mi pid token payload =
          some { value := false, err := some (.errorsNew (lit "token error")), sent := [] } ∧
        Consume w mi pid token payload =
          some { value := false, err := some (.errorsNew (lit "token error")), sent := [] }) ∨
      (3 ≤ token.length ∧ verifyToken mi token = none ∧
        (goSlice token 1 3).isSome = true ∧
        (∀ opt, (buildRequestUrl mi pid token opt).isSome = true) ∧
        (PurchaseStatus w mi pid token).isSome = true ∧
        (Acknowledge w mi pid token payload).isSome = true ∧
        (Consume w mi pid token payload).isSome = true) := by
  by_cases h : token.length < 3
  · left
    have hv := verifyToken_short mi token h
    refine ⟨h, hv, ?_, ?_, ?_⟩
    · simp [PurchaseStatus, hv]
    · simp [Acknowledge, hv]
    · simp [Consume, hv]
  · right
    have hlen : 3 ≤ token.length := by omega
    obtain ⟨_, -, h1⟩ := PurchaseStatus_valid w mi pid token hlen
    obtain ⟨_, -, h2⟩ := Acknowledge_valid w mi pid token payload hlen
    obtain ⟨_, -, h3⟩ := Consume_valid w mi pid token payload hlen
    refine ⟨hlen, verifyToken_valid mi token hlen, ?_, ?_, ?_, ?_, ?_⟩
    · rw [goSlice_region token hlen]
      rfl
    · intro opt
      unfold buildRequestUrl
      rw [goSlice_region token hlen]
      rfl
    · rw [h1]
      rfl
    · rw [h2]
      rfl
    · rw [h3]
      rfl

end Xiaomi
